import Mathlib

/-!
Shallow embedding of the trapmux SNMP trap multiplexer (Go) and proofs about
its configuration assembler, reload coordinator, dispatch engine and trap
handler.  Each definition is translated from the corresponding Go function;
external collaborators (file/HTTP config loading, the regexp and CIDR
libraries, the secret store, the plugin loader and the plugins themselves)
are abstracted as an `Ext` record of oracles, since their behaviour is not
part of this repository's core.  A few functions of the repository
(`isFilterMatch`, `processAction`, `isIgnoredVersion`) live in a source file
that is not available; these are modelled from the specification and are
marked as such in their doc comments.
-/

set_option maxHeartbeats 1000000
set_option linter.unusedVariables false

namespace Trapmux

/-- SNMP protocol versions (gosnmp `Version1`, `Version2c`, `Version3`). -/
inductive SnmpVersion
  | v1
  | v2c
  | v3
  deriving DecidableEq, Repr

/-- gosnmp `SnmpV3MsgFlags` constant: NoAuthNoPriv = 0x0. -/
def NoAuthNoPriv : Nat := 0

/-- gosnmp `SnmpV3MsgFlags` constant: AuthNoPriv = 0x1 (the Auth bit). -/
def AuthNoPriv : Nat := 1

/-- gosnmp `SnmpV3MsgFlags` constant: AuthPriv = 0x3 (Auth bit plus Priv bit). -/
def AuthPriv : Nat := 3

/-- gosnmp `SnmpV3AuthProtocol` constant: NoAuth = 1. -/
def NoAuth : Nat := 1

/-- gosnmp `SnmpV3AuthProtocol` constant: MD5 = 2. -/
def MD5 : Nat := 2

/-- gosnmp `SnmpV3AuthProtocol` constant: SHA = 3. -/
def SHA : Nat := 3

/-- gosnmp `SnmpV3PrivProtocol` constant: NoPriv = 1. -/
def NoPriv : Nat := 1

/-- gosnmp `SnmpV3PrivProtocol` constant: DES = 2. -/
def DES : Nat := 2

/-- gosnmp `SnmpV3PrivProtocol` constant: AES = 3. -/
def AES : Nat := 3

/-- A compiled regular expression, kept as its pattern text; compilation and
matching are delegated to the external `regexp` library via `Ext`. -/
structure CompiledRegex where
  pattern : String
  deriving DecidableEq, Repr

/-- A parsed CIDR network (`newNetwork` result), kept as its source text. -/
structure Cidr where
  text : String
  deriving DecidableEq, Repr

/-- Which trap field a matcher examines (`filterByVersion` … constants of
filter.go; the numeric order follows the old filter-line field order). -/
inductive FilterItem
  | filterByVersion
  | filterBySrcIP
  | filterByAgentAddr
  | filterByGenericType
  | filterBySpecificType
  | filterByOid
  deriving DecidableEq, Repr

/-- The `parseType*` constants of filter.go: how a matcher value is compared. -/
inductive ParseType
  | parseTypeInt
  | parseTypeString
  | parseTypeIPSet
  | parseTypeRegex
  | parseTypeCIDR
  deriving DecidableEq, Repr

/-- The value stored in a matcher (Go `interface{}` field `filterValue`). -/
inductive FilterValue
  | int (n : Int)
  | str (s : String)
  | version (v : SnmpVersion)
  | regex (r : CompiledRegex)
  | cidr (c : Cidr)
  deriving DecidableEq, Repr

/-- One matcher (`filterObj` struct of filter.go). -/
structure FilterObj where
  filterItem : FilterItem
  filterType : ParseType
  filterValue : FilterValue
  deriving DecidableEq, Repr

/-- The `actionType` of a filter: sentinel break/drop, sentinel nat, or plugin. -/
inductive ActionType
  | actionBreak
  | actionNat
  | actionPlugin
  deriving DecidableEq, Repr

/-- One filter stanza (`trapmuxFilter`): the JSON-facing fields
(`SnmpVersions` … `BreakAfter`) plus the fields computed during snapshot
assembly (`matchAll`, `matchers`, `actionType`, `ActionArg`, `plugin`).
The plugin handle is kept as an optional plugin name. -/
structure TrapmuxFilter where
  SnmpVersions : List String
  SourceIp : String
  AgentAddress : String
  GenericType : Int
  SpecificType : Int
  EnterpriseOid : String
  ActionName : String
  ActionArgs : List (String × String)
  BreakAfter : Bool
  ActionArg : String
  matchAll : Bool
  matchers : List FilterObj
  actionType : ActionType
  plugin : Option String
  deriving DecidableEq, Repr

/-- The `trapListenerConfig` struct: text (`*_str`) and usable variables, per
the convention documented in part_001. -/
structure TrapListenerConfig where
  Hostname : String
  ListenAddr : String
  ListenPort : String
  IgnoreVersions_str : List String
  IgnoreVersions : List SnmpVersion
  MsgFlags_str : String
  MsgFlags : Nat
  Username : String
  AuthProto_str : String
  AuthProto : Nat
  AuthPassword : String
  PrivacyProto_str : String
  PrivacyProto : Nat
  PrivacyPassword : String
  deriving DecidableEq, Repr

/-- The `general` section fields used by the assembler. -/
structure GeneralConfig where
  PluginPath : String
  GoSnmpDebug : Bool
  deriving DecidableEq, Repr

/-- The `logging` section fields used by the assembler. -/
structure LoggingConfig where
  Level : String
  deriving DecidableEq, Repr

/-- One reporting (metric) plugin stanza. -/
structure ReportingConfig where
  PluginName : String
  Args : List (String × String)
  deriving DecidableEq, Repr

/-- The `trapmuxConfig` struct.  `IpSets` is the built registry
(name → set of IPv4 literals, a Go `map[string]IpSet`); it is modelled as an
association list.  `IpSets_str` is the raw `ipsets` stanza list; each stanza
is a Go map modelled as an association list in iteration order. -/
structure TrapmuxConfig where
  teConfigured : Bool
  General : GeneralConfig
  Logging : LoggingConfig
  TrapReceiverSettings : TrapListenerConfig
  IpSets_str : List (List (String × List String))
  IpSets : List (String × List String)
  Filters : List TrapmuxFilter
  PluginErrorActions : List TrapmuxFilter
  Reporting : List ReportingConfig
  deriving DecidableEq, Repr

/-- The command line (`trapmuxCommandLine`). -/
structure TrapmuxCommandLine where
  configFile : String
  configFormat : String
  bindAddr : String
  listenPort : String
  debugMode : Bool
  deriving DecidableEq, Repr

/-- Data fields of a received trap (gosnmp `SnmpTrap`).  The variable
bindings are opaque to the engine (forwarded unchanged to actions) and are
therefore not represented. -/
structure SnmpTrapData where
  Enterprise : String
  AgentAddress : String
  GenericTrap : Int
  SpecificTrap : Int
  Timestamp : Nat
  deriving DecidableEq, Repr

/-- A trap record (`pluginMeta.Trap`). -/
structure Trap where
  Data : SnmpTrapData
  SrcIP : String
  Version : SnmpVersion
  Hostname : String
  TrapNumber : Nat
  Dropped : Bool
  deriving DecidableEq, Repr

/-- A decoded trap packet as delivered by the gosnmp listener
(`g.SnmpPacket` fields read by `trapHandler`). -/
structure SnmpPacket where
  Version : SnmpVersion
  Enterprise : String
  AgentAddress : String
  GenericTrap : Int
  SpecificTrap : Int
  Timestamp : Nat
  deriving DecidableEq, Repr

/-- External collaborators, abstracted as oracles: environment variables and
the CLI (`os.Getenv`, `teCmdLine`), the OS hostname, the JSON config loader
(file or HTTP fetch plus `json.Unmarshal`), the secret store
(`pluginMeta.GetSecret` / `MergeSecrets`), the `regexp` and CIDR libraries,
and the plugin loader together with the behaviour of loaded plugins
(`Configure`, `ProcessTrap`, `Close`).  `envListenAddress` etc. return the
empty string when the variable is unset, exactly as `os.Getenv` does. -/
structure Ext where
  cmdLine : TrapmuxCommandLine
  envListenAddress : String
  envListenPort : String
  envHostname : String
  osHostname : Except String String
  loadConfigJson : Except String TrapmuxConfig
  getSecret : String → Except String String
  mergeSecrets : List (String × String) → List (String × String)
  compileRegex : String → Except String CompiledRegex
  newNetwork : String → Except String Cidr
  loadActionPlugin : String → String → Except String String
  configurePlugin : String → List (String × String) → Except String Unit
  loadMetricPlugin : String → String → Except String Unit
  configureMetricPlugin : String → List (String × String) → Except String Unit
  pluginProcessTrapErr : String → Trap → Bool
  pluginCloseErr : String → Bool
  regexMatch : CompiledRegex → String → Bool
  cidrContains : Cidr → String → Bool

/-- Reset the computed fields of a filter to their Go zero values:
`encoding/json` can only populate exported fields, and `matchers`,
`matchAll`, `actionType`, `ActionArg` and `plugin` are computed during
assembly, never unmarshalled. -/
def initFilter (f : TrapmuxFilter) : TrapmuxFilter :=
  { f with matchAll := false, matchers := [], actionType := ActionType.actionBreak,
           ActionArg := "", plugin := none }

/-- loadConfig (part_001): read the configuration document from a file or an
HTTP URL and unmarshal it.  I/O and JSON decoding are delegated to the
`loadConfigJson` oracle; on success the fields that `json.Unmarshal` cannot
populate (unexported / computed fields, and `IpSets`, which loadConfig
freshly allocates) are reset to their initial values, following the
text-versus-usable variable convention documented in part_001. -/
def loadConfig (ext : Ext) : Except String TrapmuxConfig :=
  match ext.loadConfigJson with
  | Except.error e => Except.error e
  | Except.ok c =>
      Except.ok { c with
        teConfigured := false,
        IpSets := [],
        TrapReceiverSettings := { c.TrapReceiverSettings with
          IgnoreVersions := [], MsgFlags := 0, AuthProto := 0, PrivacyProto := 0 },
        Filters := c.Filters.map initFilter,
        PluginErrorActions := c.PluginErrorActions.map initFilter }

/-- applyCliOverrides (part_001): environment beats CLI beats file; a missing
hostname falls back to the OS hostname and then to the literal `_undefined`. -/
def applyCliOverrides (ext : Ext) (newConfig : TrapmuxConfig) : TrapmuxConfig :=
  let trs0 := newConfig.TrapReceiverSettings
  let trs1 :=
    if ext.envListenAddress ≠ "" then { trs0 with ListenAddr := ext.envListenAddress }
    else if ext.cmdLine.bindAddr ≠ "" then { trs0 with ListenAddr := ext.cmdLine.bindAddr }
    else trs0
  let trs2 :=
    if ext.envListenPort ≠ "" then { trs1 with ListenPort := ext.envListenPort }
    else if ext.cmdLine.listenPort ≠ "" then { trs1 with ListenPort := ext.cmdLine.listenPort }
    else trs1
  let logging :=
    if ext.cmdLine.debugMode then { newConfig.Logging with Level := "debug" }
    else newConfig.Logging
  let trs3 :=
    if ext.envHostname ≠ "" then { trs2 with Hostname := ext.envHostname }
    else if trs2.Hostname = "" then
      match ext.osHostname with
      | Except.error _ => { trs2 with Hostname := "_undefined" }
      | Except.ok myName => { trs2 with Hostname := myName }
    else trs2
  { newConfig with TrapReceiverSettings := trs3, Logging := logging }

/-- Go `strings.ToLower`, character by character (all strings compared after
lowering in this code are ASCII, where Char.toLower agrees with Go). -/
def strToLower (s : String) : String :=
  ⟨s.data.map Char.toLower⟩

/-- Go `strings.HasPrefix`. -/
def strHasPrefix (s p : String) : Bool :=
  p.data.isPrefixOf s.data

/-- The case-insensitive SNMP version tokens accepted by
`validateIgnoreVersions` and `addSnmpFilterObj`: {v1,1}, {v2c,2c,2}, {v3,3}. -/
def tokenVersion (s : String) : Option SnmpVersion :=
  match strToLower s with
  | "v1" => some SnmpVersion.v1
  | "1" => some SnmpVersion.v1
  | "v2c" => some SnmpVersion.v2c
  | "2c" => some SnmpVersion.v2c
  | "2" => some SnmpVersion.v2c
  | "v3" => some SnmpVersion.v3
  | "3" => some SnmpVersion.v3
  | _ => none

/-- The loop of validateIgnoreVersions (part_001): one boolean per version
records whether it was already appended, so duplicates are collapsed. -/
def ivLoop : List String → List SnmpVersion → Bool → Bool → Bool →
    Except String (List SnmpVersion)
  | [], acc, _, _, _ => Except.ok acc
  | candidate :: rest, acc, ignorev1, ignorev2c, ignorev3 =>
    match tokenVersion candidate with
    | some SnmpVersion.v1 =>
        ivLoop rest (if ignorev1 then acc else acc ++ [SnmpVersion.v1]) true ignorev2c ignorev3
    | some SnmpVersion.v2c =>
        ivLoop rest (if ignorev2c then acc else acc ++ [SnmpVersion.v2c]) ignorev1 true ignorev3
    | some SnmpVersion.v3 =>
        ivLoop rest (if ignorev3 then acc else acc ++ [SnmpVersion.v3]) ignorev1 ignorev2c true
    | none =>
        Except.error ("unsupported or invalid value (" ++ candidate ++
          ") for general:ignore_version")

/-- validateIgnoreVersions (part_001): normalise the `ignored_versions`
tokens, collapse duplicates, and reject a configuration that ignores all
three SNMP versions (`len > 2` after dedup). -/
def validateIgnoreVersions (newConfig : TrapmuxConfig) : Except String TrapmuxConfig :=
  match ivLoop newConfig.TrapReceiverSettings.IgnoreVersions_str
      newConfig.TrapReceiverSettings.IgnoreVersions false false false with
  | Except.error e => Except.error e
  | Except.ok vs =>
    if vs.length > 2 then
      Except.error ("all three SNMP versions are ignored -- there will be no traps to process")
    else
      Except.ok { newConfig with TrapReceiverSettings :=
        { newConfig.TrapReceiverSettings with IgnoreVersions := vs } }

/-- The msg_flags switch of validateSnmpV3Args. -/
def msgFlagsOfStr (s : String) : Option Nat :=
  match strToLower s with
  | "noauthnopriv" => some NoAuthNoPriv
  | "" => some NoAuthNoPriv
  | "authnopriv" => some AuthNoPriv
  | "authpriv" => some AuthPriv
  | _ => none

/-- The auth_protocol switch of validateSnmpV3Args. -/
def authProtoOfStr (s : String) : Option Nat :=
  match strToLower s with
  | "noauth" => some NoAuth
  | "" => some NoAuth
  | "sha" => some SHA
  | "md5" => some MD5
  | _ => none

/-- The privacy_protocol switch of validateSnmpV3Args. -/
def privProtoOfStr (s : String) : Option Nat :=
  match strToLower s with
  | "nopriv" => some NoPriv
  | "" => some NoPriv
  | "aes" => some AES
  | "des" => some DES
  | _ => none

/-- validateSnmpV3Args (part_001): decode the textual v3 parameters, resolve
the two password secrets, then run the two sanity checks.  The first check is
transcribed exactly as written in the source:
`(params.MsgFlags & g.AuthPriv) == 1 && params.AuthProto < 2`. -/
def validateSnmpV3Args (ext : Ext) (params : TrapListenerConfig) :
    Except String TrapListenerConfig :=
  match msgFlagsOfStr params.MsgFlags_str with
  | none =>
      Except.error ("unsupported or invalid value (" ++ params.MsgFlags_str ++
        ") for snmpv3:msg_flags")
  | some mf =>
  match authProtoOfStr params.AuthProto_str with
  | none => Except.error ("invalid value for snmpv3:auth_protocol: " ++ params.AuthProto_str)
  | some ap =>
  match ext.getSecret params.AuthPassword with
  | Except.error _ =>
      Except.error ("unable to decode secret for auth password: " ++ params.AuthPassword)
  | Except.ok authPlaintext =>
  match privProtoOfStr params.PrivacyProto_str with
  | none =>
      Except.error ("invalid value for snmpv3:privacy_protocol: " ++ params.PrivacyProto_str)
  | some pp =>
  match ext.getSecret params.PrivacyPassword with
  | Except.error _ =>
      Except.error ("unable to decode secret for privacy password: " ++ params.PrivacyPassword)
  | Except.ok privPlaintext =>
  if (mf &&& AuthPriv) = 1 ∧ ap < 2 then
    Except.error ("v3 config error: no auth protocol set when snmpv3:msg_flags specifies an Auth mode")
  else if mf = AuthPriv ∧ pp < 2 then
    Except.error ("v3 config error: no privacy protocol mode set when snmpv3:msg_flags specifies an AuthPriv mode")
  else
    Except.ok { params with MsgFlags := mf, AuthProto := ap, AuthPassword := authPlaintext,
                            PrivacyProto := pp, PrivacyPassword := privPlaintext }

/-- Split a character list at every dot (the components of `a.b.c.d`). -/
def splitOnDot : List Char → List (List Char)
  | [] => [[]]
  | c :: rest =>
    let r := splitOnDot rest
    if c = '.' then [] :: r
    else
      match r with
      | [] => [[c]]
      | h :: t => (c :: h) :: t

/-- A run of one to three ASCII digits (Go regexp `\d{1,3}`, where `\d` is
exactly [0-9]). -/
def isOctetRun (cs : List Char) : Bool :=
  decide (1 ≤ cs.length) && decide (cs.length ≤ 3) && cs.all Char.isDigit

/-- Transliteration of the Go regexp
`ipRe = ^(?:\d{1,3}\.){3}\d{1,3}$` (part_001 line 49): the anchored pattern
matches exactly the strings made of four dot-separated runs of one to three
ASCII digits (a digit is never a dot, so the language of the regex is exactly
this set).  No 0–255 range check is performed, as in the source. -/
def ipReMatches (s : String) : Bool :=
  let parts := splitOnDot s.data
  (parts.length == 4) && parts.all isOctetRun

/-- The error message of addIpSets for a literal that fails `ipRe`. -/
def ipErrMsg (ip ipsName : String) : String :=
  "invalid IP address (" ++ ip ++ ") in ipset: " ++ ipsName

/-- The inner loop of addIpSets: validate every literal of one ipset against
`ipRe`, failing with a message that names both the ipset and the address. -/
def checkIps (ipsName : String) : List String → Except String (List String)
  | [] => Except.ok []
  | ip :: rest =>
    if ipReMatches ip then
      match checkIps ipsName rest with
      | Except.error e => Except.error e
      | Except.ok v => Except.ok (ip :: v)
    else
      Except.error (ipErrMsg ip ipsName)

/-- Go map update `m[k] = v` on the association-list model. -/
def mapInsert (m : List (String × List String)) (k : String) (v : List String) :
    List (String × List String) :=
  (m.filter (fun kv => kv.1 ≠ k)) ++ [(k, v)]

/-- One stanza of addIpSets: each `name → addresses` pair is validated and
installed into the registry. -/
def addIpSetStanza : List (String × List String) → TrapmuxConfig → Except String TrapmuxConfig
  | [], newConfig => Except.ok newConfig
  | (ipsName, ips) :: rest, newConfig =>
    match checkIps ipsName ips with
    | Except.error e => Except.error e
    | Except.ok good =>
        addIpSetStanza rest { newConfig with IpSets := mapInsert newConfig.IpSets ipsName good }

/-- The outer loop of addIpSets over the stanza list. -/
def addIpSetsLoop : List (List (String × List String)) → TrapmuxConfig →
    Except String TrapmuxConfig
  | [], newConfig => Except.ok newConfig
  | stanza :: rest, newConfig =>
    match addIpSetStanza stanza newConfig with
    | Except.error e => Except.error e
    | Except.ok c => addIpSetsLoop rest c

/-- addIpSets (part_001): build the IP-set registry from the raw stanzas,
validating every literal against `ipRe`. -/
def addIpSets (newConfig : TrapmuxConfig) : Except String TrapmuxConfig :=
  addIpSetsLoop newConfig.IpSets_str newConfig

/-- The loop of addSnmpFilterObj (part_001): one matcher per SNMP-version
token; each emitted matcher resets `matchAll`. -/
def addSnmpFilterLoop (lineNumber : Nat) : List String → TrapmuxFilter →
    Except String TrapmuxFilter
  | [], filter => Except.ok filter
  | candidate :: rest, filter =>
    match tokenVersion candidate with
    | none =>
        Except.error ("unsupported or invalid SNMP version (" ++ candidate ++
          ") on line " ++ toString lineNumber)
    | some v =>
        addSnmpFilterLoop lineNumber rest
          { filter with
            matchAll := false,
            matchers := filter.matchers ++
              [⟨FilterItem.filterByVersion, ParseType.parseTypeInt, FilterValue.version v⟩] }

/-- addSnmpFilterObj (part_001): an empty `snmp_versions` list means all
versions match and emits no matcher. -/
def addSnmpFilterObj (filter : TrapmuxFilter) (lineNumber : Nat) :
    Except String TrapmuxFilter :=
  addSnmpFilterLoop lineNumber filter.SnmpVersions filter

/-- addIpFilterObj (part_001): an IP-field entry is an ipset reference
(leading `ipset:`, which must name a registered set), a regex (leading `/`),
a CIDR (contains `/`), or a literal string; the empty string is the wildcard
and emits no matcher. -/
def addIpFilterObj (ext : Ext) (filter : TrapmuxFilter) (source : FilterItem)
    (networkEntry : String) (ipSets : List (String × List String)) (lineNumber : Nat) :
    Except String TrapmuxFilter :=
  if networkEntry = "" then Except.ok filter
  else
    let f1 := { filter with matchAll := false }
    if strHasPrefix networkEntry ("ipset:") then
      let ipSetName := networkEntry.drop 6
      if (ipSets.lookup ipSetName).isSome then
        Except.ok { f1 with matchers := f1.matchers ++
          [⟨source, ParseType.parseTypeIPSet, FilterValue.str ipSetName⟩] }
      else
        Except.error ("invalid IP set name specified on line " ++ toString lineNumber ++
          ": " ++ networkEntry)
    else if strHasPrefix networkEntry ("/") then
      match ext.compileRegex (networkEntry.drop 1) with
      | Except.ok re =>
          Except.ok { f1 with matchers := f1.matchers ++
            [⟨source, ParseType.parseTypeRegex, FilterValue.regex re⟩] }
      | Except.error e =>
          Except.error ("unable to compile regular expressions for IP on line " ++
            toString lineNumber ++ ": " ++ networkEntry ++ ": " ++ e)
    else if networkEntry.toList.contains '/' then
      match ext.newNetwork networkEntry with
      | Except.ok nw =>
          Except.ok { f1 with matchers := f1.matchers ++
            [⟨source, ParseType.parseTypeCIDR, FilterValue.cidr nw⟩] }
      | Except.error _ =>
          Except.error ("invalid IP/CIDR at line " ++ toString lineNumber ++ ": " ++ networkEntry)
    else
      Except.ok { f1 with matchers := f1.matchers ++
        [⟨source, ParseType.parseTypeString, FilterValue.str networkEntry⟩] }

/-- addTrapTypeFilterObj (part_001): `-1` is the wildcard for the generic and
specific trap types and emits no matcher. -/
def addTrapTypeFilterObj (filter : TrapmuxFilter) (source : FilterItem)
    (trapTypeEntry : Int) (lineNumber : Nat) : Except String TrapmuxFilter :=
  if trapTypeEntry = -1 then Except.ok filter
  else
    Except.ok { filter with
                matchAll := false,
                matchers := filter.matchers ++
                  [⟨source, ParseType.parseTypeInt, FilterValue.int trapTypeEntry⟩] }

/-- addOidFilterObj (part_001): the empty string is the wildcard; otherwise
the enterprise OID pattern is compiled as a regex. -/
def addOidFilterObj (ext : Ext) (filter : TrapmuxFilter) (oid : String) (lineNumber : Nat) :
    Except String TrapmuxFilter :=
  if oid = "" then Except.ok filter
  else
    let f1 := { filter with matchAll := false }
    match ext.compileRegex oid with
    | Except.error e =>
        Except.error ("unable to compile regular expression at line " ++ toString lineNumber ++
          " for OID: " ++ oid ++ ": " ++ e)
    | Except.ok re =>
        Except.ok { f1 with matchers := f1.matchers ++
          [⟨FilterItem.filterByOid, ParseType.parseTypeRegex, FilterValue.regex re⟩] }

/-- addFilterObjs (part_001): reset `matchAll` to true, then emit a matcher
for every present, non-wildcard field of the stanza. -/
def addFilterObjs (ext : Ext) (filter : TrapmuxFilter)
    (ipSets : List (String × List String)) (lineNumber : Nat) :
    Except String TrapmuxFilter :=
  match addSnmpFilterObj { filter with matchAll := true } lineNumber with
  | Except.error e => Except.error e
  | Except.ok f1 =>
  match addIpFilterObj ext f1 FilterItem.filterBySrcIP f1.SourceIp ipSets lineNumber with
  | Except.error e => Except.error e
  | Except.ok f2 =>
  match addIpFilterObj ext f2 FilterItem.filterByAgentAddr f2.AgentAddress ipSets lineNumber with
  | Except.error e => Except.error e
  | Except.ok f3 =>
  match addTrapTypeFilterObj f3 FilterItem.filterByGenericType f3.GenericType lineNumber with
  | Except.error e => Except.error e
  | Except.ok f4 =>
  match addTrapTypeFilterObj f4 FilterItem.filterBySpecificType f4.SpecificType lineNumber with
  | Except.error e => Except.error e
  | Except.ok f5 =>
  addOidFilterObj ext f5 f5.EnterpriseOid lineNumber

/-- setAction (part_001): bind the filter's action — sentinel break/drop,
sentinel nat (requiring a non-empty `natIp` argument), or a loaded and
configured plugin (with secrets merged into its arguments). -/
def setAction (ext : Ext) (filter : TrapmuxFilter) (pluginPathExpr : String)
    (lineNumber : Nat) : Except String TrapmuxFilter :=
  match filter.ActionName with
  | "break" => Except.ok { filter with actionType := ActionType.actionBreak }
  | "drop" => Except.ok { filter with actionType := ActionType.actionBreak }
  | "nat" =>
    let arg := (filter.ActionArgs.lookup ("natIp")).getD ""
    if arg = "" then Except.error ("missing NAT argument at line " ++ toString lineNumber)
    else Except.ok { filter with actionType := ActionType.actionNat, ActionArg := arg }
  | _ =>
    match ext.loadActionPlugin pluginPathExpr filter.ActionName with
    | Except.error e =>
        Except.error ("unable to load plugin " ++ filter.ActionName ++ " at line " ++
          toString lineNumber ++ ": " ++ e)
    | Except.ok handle =>
      let args := ext.mergeSecrets filter.ActionArgs
      match ext.configurePlugin filter.ActionName args with
      | Except.error e =>
          Except.error ("unable to configure plugin " ++ filter.ActionName ++ " at line " ++
            toString lineNumber ++ ": " ++ e)
      | Except.ok _ =>
          Except.ok { filter with
                      actionType := ActionType.actionPlugin,
                      ActionArgs := args, plugin := some handle }

/-- The shared loop of addFilters and addPluginErrorActions (part_001): build
each stanza's matchers, then bind its action. -/
def addFiltersLoop (ext : Ext) (ipSets : List (String × List String))
    (pluginPath : String) : Nat → List TrapmuxFilter →
    Except String (List TrapmuxFilter)
  | _, [] => Except.ok []
  | i, f :: rest =>
    match addFilterObjs ext f ipSets i with
    | Except.error e => Except.error e
    | Except.ok f1 =>
    match setAction ext f1 pluginPath i with
    | Except.error e => Except.error e
    | Except.ok f2 =>
    match addFiltersLoop ext ipSets pluginPath (i + 1) rest with
    | Except.error e => Except.error e
    | Except.ok fs => Except.ok (f2 :: fs)

/-- addFilters (part_001). -/
def addFilters (ext : Ext) (newConfig : TrapmuxConfig) : Except String TrapmuxConfig :=
  match addFiltersLoop ext newConfig.IpSets newConfig.General.PluginPath 0 newConfig.Filters with
  | Except.error e => Except.error e
  | Except.ok fs => Except.ok { newConfig with Filters := fs }

/-- addPluginErrorActions (part_001): same construction applied to the
`plugin_error_actions` list. -/
def addPluginErrorActions (ext : Ext) (newConfig : TrapmuxConfig) :
    Except String TrapmuxConfig :=
  match addFiltersLoop ext newConfig.IpSets newConfig.General.PluginPath 0
      newConfig.PluginErrorActions with
  | Except.error e => Except.error e
  | Except.ok fs => Except.ok { newConfig with PluginErrorActions := fs }

/-- The loop of addReportingPlugins (part_001).  The Go code assigns the
loaded handle to the `range` loop copy, so the configuration records are not
modified; only the error result is observable.  The plugin path is read from
the OLD global configuration (`teConfig.General.PluginPath`), not the new one. -/
def addReportingLoop (ext : Ext) (pluginPath : String) : Nat → List ReportingConfig →
    Except String Unit
  | _, [] => Except.ok ()
  | i, rc :: rest =>
    match ext.loadMetricPlugin pluginPath rc.PluginName with
    | Except.error e => Except.error e
    | Except.ok _ =>
      match ext.configureMetricPlugin rc.PluginName (ext.mergeSecrets rc.Args) with
      | Except.error e =>
          Except.error ("unable to configure plugin " ++ rc.PluginName ++ " at line " ++
            toString i ++ ": " ++ e)
      | Except.ok _ => addReportingLoop ext pluginPath (i + 1) rest

/-- addReportingPlugins (part_001). -/
def addReportingPlugins (ext : Ext) (old : Option TrapmuxConfig)
    (newConfig : TrapmuxConfig) : Except String TrapmuxConfig :=
  let pluginPath := match old with
    | some oc => oc.General.PluginPath
    | none => ""
  match addReportingLoop ext pluginPath 0 newConfig.Reporting with
  | Except.error e => Except.error e
  | Except.ok _ => Except.ok newConfig

/-- The loop of closeHandles (part_001): `Close` is invoked on the plugin of
every filter of the MAIN filter list whose action is a plugin; an error is
logged at warn level and the loop continues.  Each produced pair is one
`Close` invocation: the plugin's action name and whether its error was
logged. -/
def closeHandlesLoop (ext : Ext) : List TrapmuxFilter → List (String × Bool)
  | [] => []
  | f :: fs =>
    if f.actionType = ActionType.actionPlugin then
      (f.ActionName, ext.pluginCloseErr f.ActionName) :: closeHandlesLoop ext fs
    else closeHandlesLoop ext fs

/-- closeHandles (part_001): iterates `teConfig.Filters` only. -/
def closeHandles (ext : Ext) (cfg : TrapmuxConfig) : List (String × Bool) :=
  closeHandlesLoop ext cfg.Filters

/-- The assembly pipeline of getConfig (part_001), in source order: load,
CLI/env overrides, ignored-version validation, v3 validation, ipset build,
filter build, plugin-error-action build, reporting-plugin build.  Any step's
error aborts the pipeline with that error. -/
def assembleConfig (ext : Ext) (old : Option TrapmuxConfig) : Except String TrapmuxConfig :=
  match loadConfig ext with
  | Except.error e => Except.error e
  | Except.ok newConfig0 =>
  let newConfig1 := applyCliOverrides ext newConfig0
  match validateIgnoreVersions newConfig1 with
  | Except.error e => Except.error e
  | Except.ok newConfig2 =>
  match validateSnmpV3Args ext newConfig2.TrapReceiverSettings with
  | Except.error e => Except.error e
  | Except.ok trs =>
  let newConfig3 := { newConfig2 with TrapReceiverSettings := trs }
  match addIpSets newConfig3 with
  | Except.error e => Except.error e
  | Except.ok newConfig4 =>
  match addFilters ext newConfig4 with
  | Except.error e => Except.error e
  | Except.ok newConfig5 =>
  match addPluginErrorActions ext newConfig5 with
  | Except.error e => Except.error e
  | Except.ok newConfig6 =>
  addReportingPlugins ext old newConfig6

/-- getConfig (part_001): run the assembly pipeline; on any error return it
and leave the published configuration untouched.  On success, if this is a
reconfigure (an old configured snapshot exists), close the old handles, then
publish the new snapshot by setting the global pointer.  The result is
(published snapshot, Close invocations performed, outcome). -/
def getConfig (ext : Ext) (old : Option TrapmuxConfig) :
    Option TrapmuxConfig × List (String × Bool) × Except String Unit :=
  match assembleConfig ext old with
  | Except.error e => (old, [], Except.error e)
  | Except.ok c =>
    let closeEvs : List (String × Bool) :=
      match old with
      | some oc => if oc.teConfigured then closeHandles ext oc else []
      | none => []
    (some { c with teConfigured := true }, closeEvs, Except.ok ())

/-- One SIGHUP iteration of handleSIGHUP (signal.go): call getConfig; a
failure is logged ("Error parsing configuration / Configuration was not
changed") and the daemon keeps running with the old snapshot.  Result:
(published snapshot, Close invocations, error-log lines). -/
def handleSIGHUPOnce (ext : Ext) (old : Option TrapmuxConfig) :
    Option TrapmuxConfig × List (String × Bool) × List String :=
  let r := getConfig ext old
  match r.2.2 with
  | Except.error _ =>
      (r.1, r.2.1, ["Error parsing configuration / Configuration was not changed"])
  | Except.ok _ => (r.1, r.2.1, [])

/-- Modelled from the spec: the matcher evaluation of `isFilterMatch` lives
in the repository's filter.go, which is not under src/.  Spec §4.1 gives the
semantics by (field, kind): integer equality for versions and trap types,
literal equality / ipset membership / regex / CIDR membership for the IP
fields, regex for the enterprise OID.  Regex and CIDR tests are delegated to
the `Ext` oracles, ipset membership to the snapshot's registry. -/
def evalIpMatch (ext : Ext) (ipSets : List (String × List String)) (ip : String)
    (m : FilterObj) : Bool :=
  match m.filterType, m.filterValue with
  | ParseType.parseTypeString, FilterValue.str s => ip == s
  | ParseType.parseTypeIPSet, FilterValue.str name =>
    match ipSets.lookup name with
    | some ips => ips.contains ip
    | none => false
  | ParseType.parseTypeRegex, FilterValue.regex r => ext.regexMatch r ip
  | ParseType.parseTypeCIDR, FilterValue.cidr c => ext.cidrContains c ip
  | _, _ => false

/-- Modelled from the spec: one matcher evaluated against one trap (§4.1). -/
def evalMatcher (ext : Ext) (ipSets : List (String × List String)) (trap : Trap)
    (m : FilterObj) : Bool :=
  match m.filterItem with
  | FilterItem.filterByVersion =>
    match m.filterValue with
    | FilterValue.version v => trap.Version == v
    | _ => false
  | FilterItem.filterBySrcIP => evalIpMatch ext ipSets trap.SrcIP m
  | FilterItem.filterByAgentAddr => evalIpMatch ext ipSets trap.Data.AgentAddress m
  | FilterItem.filterByGenericType =>
    match m.filterValue with
    | FilterValue.int n => trap.Data.GenericTrap == n
    | _ => false
  | FilterItem.filterBySpecificType =>
    match m.filterValue with
    | FilterValue.int n => trap.Data.SpecificTrap == n
    | _ => false
  | FilterItem.filterByOid =>
    match m.filterValue with
    | FilterValue.regex r => ext.regexMatch r trap.Data.Enterprise
    | _ => false

/-- Modelled from the spec: `isFilterMatch` (filter.go, not under src/) — a
non-empty matcher list matches iff every matcher matches (conjunction). -/
def isFilterMatch (ext : Ext) (ipSets : List (String × List String))
    (filter : TrapmuxFilter) (trap : Trap) : Bool :=
  filter.matchers.all (evalMatcher ext ipSets trap)

/-- Modelled from the spec: the body of `processAction` lives in the
repository's filter.go, which is not under src/.  Per spec §4.3/§4.5: `nat`
rewrites the trap's agent address from `ActionArg` and succeeds; a plugin
action invokes the plugin's `ProcessTrap`, whose success or failure is the
external outcome `pluginProcessTrapErr`; `break` never reaches processAction
from the dispatch loop (handled before), and returns no error.  The result is
(possibly rewritten trap, whether the action returned an error). -/
def processAction (ext : Ext) (filter : TrapmuxFilter) (trap : Trap) : Trap × Bool :=
  match filter.actionType with
  | ActionType.actionBreak => (trap, false)
  | ActionType.actionNat =>
      ({ trap with Data := { trap.Data with AgentAddress := filter.ActionArg } }, false)
  | ActionType.actionPlugin => (trap, ext.pluginProcessTrapErr filter.ActionName trap)

/-- Observable events of one dispatch: filter i was considered (its
matchAll/isFilterMatch test ran), filter i's processAction was invoked, or
plugin-error filter j's processAction was spawned against trap t. -/
inductive DispatchEv
  | matchChecked (i : Nat)
  | actionRun (i : Nat)
  | errActionRun (j : Nat) (t : Trap)
  deriving DecidableEq, Repr

/-- The state threaded through the dispatch loop: the (mutable) trap, the
DroppedTraps counter increments performed, and the event trace. -/
structure DState where
  trap : Trap
  droppedCount : Nat
  events : List DispatchEv
  deriving DecidableEq, Repr

/-- One iteration of the processTrap loop (signal.go lines 196–221): a
dropped trap is skipped outright; otherwise the filter is considered, and on
a match a break/drop action drops the trap and bumps the DroppedTraps
counter, while any other action runs processAction — an action error spawns
the processAction of every plugin_error_filters entry against the same trap
(fire-and-forget, return value discarded) — after which BreakAfter drops the
trap and bumps the counter regardless of the action's outcome. -/
def processTrapStep (ext : Ext) (cfg : TrapmuxConfig) (i : Nat)
    (filterDef : TrapmuxFilter) (s : DState) : DState :=
  if s.trap.Dropped then s
  else
    let s1 : DState := { s with events := s.events ++ [DispatchEv.matchChecked i] }
    if filterDef.matchAll || isFilterMatch ext cfg.IpSets filterDef s1.trap then
      if filterDef.actionType = ActionType.actionBreak then
        { s1 with trap := { s1.trap with Dropped := true },
                  droppedCount := s1.droppedCount + 1 }
      else
        let res := processAction ext filterDef s1.trap
        let s2 : DState := { s1 with
                             trap := res.1,
                             events := s1.events ++ [DispatchEv.actionRun i] }
        let s3 : DState :=
          if res.2 then
            { s2 with events := s2.events ++
                        (List.range cfg.PluginErrorActions.length).map
                          (fun j => DispatchEv.errActionRun j res.1) }
          else s2
        if filterDef.BreakAfter then
          { s3 with trap := { s3.trap with Dropped := true },
                    droppedCount := s3.droppedCount + 1 }
        else s3
    else s1

/-- The processTrap loop over the remaining filters, i the index of the next
filter in declaration order. -/
def runFilters (ext : Ext) (cfg : TrapmuxConfig) : Nat → List TrapmuxFilter → DState → DState
  | _, [], s => s
  | i, f :: fs, s => runFilters ext cfg (i + 1) fs (processTrapStep ext cfg i f s)

/-- processTrap (signal.go): dispatch one trap through the snapshot's filter
chain in declaration order. -/
def processTrap (ext : Ext) (cfg : TrapmuxConfig) (trap : Trap) : DState :=
  runFilters ext cfg 0 cfg.Filters { trap := trap, droppedCount := 0, events := [] }

/-- Counter state of the trap handler (the semantic counters behind
`counterInc`, which forwards to the reporting plugins) together with the
global `totalTraps` variable. -/
structure HState where
  totalTraps : Nat
  trapCount : Nat
  v1Count : Nat
  v2cCount : Nat
  v3Count : Nat
  ignoredCount : Nat
  handledCount : Nat
  deriving DecidableEq, Repr

/-- The all-zero initial handler state (Go zero values at process start). -/
def initHState : HState := ⟨0, 0, 0, 0, 0, 0, 0⟩

/-- Modelled from the spec: `isIgnoredVersion` (filter.go, not under src/) —
membership of the trap's version in the snapshot's ignored-version set. -/
def isIgnoredVersion (cfg : TrapmuxConfig) (v : SnmpVersion) : Bool :=
  cfg.TrapReceiverSettings.IgnoreVersions.contains v

/-- The per-version counter bump of trapHandler's switch. -/
def bumpVersionCounter (s : HState) (v : SnmpVersion) : HState :=
  match v with
  | SnmpVersion.v1 => { s with v1Count := s.v1Count + 1 }
  | SnmpVersion.v2c => { s with v2cCount := s.v2cCount + 1 }
  | SnmpVersion.v3 => { s with v3Count := s.v3Count + 1 }

/-- The trap record built by trapHandler for a handled trap: packet fields,
UDP peer IP, configured hostname, and the running total as sequence number. -/
def mkTrap (cfg : TrapmuxConfig) (p : SnmpPacket) (addrIP : String) (number : Nat) : Trap :=
  { Data := { Enterprise := p.Enterprise, AgentAddress := p.AgentAddress,
              GenericTrap := p.GenericTrap, SpecificTrap := p.SpecificTrap,
              Timestamp := p.Timestamp },
    SrcIP := addrIP, Version := p.Version,
    Hostname := cfg.TrapReceiverSettings.Hostname,
    TrapNumber := number, Dropped := false }

/-- trapHandler (signal.go lines 144–190), up to the dispatch call: count
every received trap (TrapCount and totalTraps), bump the per-version counter,
return early for ignored versions (IgnoredTraps), otherwise count it handled
(HandledTraps) and build the trap record stamped with the running total. -/
def trapHandler (cfg : TrapmuxConfig) (s : HState) (p : SnmpPacket) (addrIP : String) :
    HState × Option Trap :=
  let s0 := { s with trapCount := s.trapCount + 1, totalTraps := s.totalTraps + 1 }
  let s1 := bumpVersionCounter s0 p.Version
  if isIgnoredVersion cfg p.Version then
    ({ s1 with ignoredCount := s1.ignoredCount + 1 }, none)
  else
    ({ s1 with handledCount := s1.handledCount + 1 },
     some (mkTrap cfg p addrIP s1.totalTraps))

/-- Run the trap handler over a sequence of received packets, collecting each
call's outcome (none = ignored before a trap record was built). -/
def runTrapHandler (cfg : TrapmuxConfig) : HState → List (SnmpPacket × String) →
    HState × List (Option Trap)
  | s, [] => (s, [])
  | s, (p, a) :: rest =>
    let r1 := trapHandler cfg s p a
    let r2 := runTrapHandler cfg r1.1 rest
    (r2.1, r1.2 :: r2.2)

/-- The default packet used when indexing past the end of a packet list. -/
def dfltPacket : SnmpPacket := ⟨SnmpVersion.v1, "", "", 0, 0, 0⟩

/-- The expected trapHandler outcome sequence when n traps were already
received: packet i is either ignored (none) or becomes a trap record whose
sequence number is n + i + 1. -/
def expectedOuts (cfg : TrapmuxConfig) : Nat → List (SnmpPacket × String) → List (Option Trap)
  | _, [] => []
  | n, (p, a) :: rest =>
    (if isIgnoredVersion cfg p.Version then none else some (mkTrap cfg p a (n + 1))) ::
      expectedOuts cfg (n + 1) rest

/-- Whether an `Except` result is a success. -/
def exceptIsOk {α : Type} : Except String α → Bool
  | Except.ok _ => true
  | Except.error _ => false

/-- A matcher's ipset reference, when it has one, names a key of the given
registry (spec invariant 2). -/
def ipsetRefOk (ipSets : List (String × List String)) (m : FilterObj) : Prop :=
  m.filterType = ParseType.parseTypeIPSet →
    ∃ nm, m.filterValue = FilterValue.str nm ∧ (ipSets.lookup nm).isSome = true

instance exceptDecEq {ε α : Type} [DecidableEq ε] [DecidableEq α] :
    DecidableEq (Except ε α) := fun a b =>
  match a, b with
  | Except.error x, Except.error y =>
    if h : x = y then isTrue (by rw [h]) else isFalse (by intro hc; cases hc; exact h rfl)
  | Except.ok x, Except.ok y =>
    if h : x = y then isTrue (by rw [h]) else isFalse (by intro hc; cases hc; exact h rfl)
  | Except.error _, Except.ok _ => isFalse (by intro hc; cases hc)
  | Except.ok _, Except.error _ => isFalse (by intro hc; cases hc)

/-- Whether one token of the ignored-version list maps to version v. -/
def hasTok (toks : List String) (v : SnmpVersion) : Bool :=
  toks.any (fun t => tokenVersion t == some v)

/-- A benign set of external collaborators: every oracle succeeds, every
plugin action reports an error (so that error paths are exercised), closes
succeed, and every regex/CIDR test matches. -/
def extNoop : Ext :=
  { cmdLine := ⟨"", "", "", "", false⟩
    envListenAddress := ""
    envListenPort := ""
    envHostname := ""
    osHostname := Except.ok ("host")
    loadConfigJson := Except.error ("no configuration source")
    getSecret := fun s => Except.ok s
    mergeSecrets := fun a => a
    compileRegex := fun p => Except.ok ⟨p⟩
    newNetwork := fun t => Except.ok ⟨t⟩
    loadActionPlugin := fun _ name => Except.ok name
    configurePlugin := fun _ _ => Except.ok ()
    loadMetricPlugin := fun _ _ => Except.ok ()
    configureMetricPlugin := fun _ _ => Except.ok ()
    pluginProcessTrapErr := fun _ _ => true
    pluginCloseErr := fun _ => false
    regexMatch := fun _ _ => true
    cidrContains := fun _ _ => true }

/-- An empty listener configuration (Go zero values). -/
def emptyListener : TrapListenerConfig :=
  ⟨"", "", "", [], [], "", 0, "", "", 0, "", "", 0, ""⟩

/-- An empty configuration (Go zero values). -/
def emptyConfig : TrapmuxConfig :=
  ⟨false, ⟨"", false⟩, ⟨""⟩, emptyListener, [], [], [], [], []⟩

/-- An all-wildcard filter stanza with no action name. -/
def emptyFilter : TrapmuxFilter :=
  ⟨[], "", "", -1, -1, "", "", [], false, "", false, [], ActionType.actionBreak, none⟩

/-- The v3 settings exhibiting the sanity-check slip: AuthPriv msg_flags with
auth protocol NoAuth and privacy protocol DES. -/
def v3AuthPrivNoAuth : TrapListenerConfig :=
  { emptyListener with MsgFlags_str := "AuthPriv", AuthProto_str := "NoAuth",
                       PrivacyProto_str := "DES" }

/-- AuthNoPriv msg_flags with the default (NoAuth) auth protocol. -/
def v3AuthNoPrivNoAuth : TrapListenerConfig :=
  { emptyListener with MsgFlags_str := "AuthNoPriv" }

/-- AuthPriv msg_flags with SHA auth but the default (NoPriv) privacy
protocol. -/
def v3AuthPrivSha : TrapListenerConfig :=
  { emptyListener with MsgFlags_str := "AuthPriv", AuthProto_str := "SHA" }

/-- A configuration whose first ipset contains a malformed literal. -/
def cfgBadIp : TrapmuxConfig :=
  { emptyConfig with IpSets_str := [[("set1", ["1.2.3", "1.2.3.4"])]] }

/-- A configuration with mixed-case and duplicate ignored-version tokens. -/
def ivWitCfg : TrapmuxConfig :=
  { emptyConfig with TrapReceiverSettings :=
      { emptyListener with IgnoreVersions_str := ["V1", "1", "2c"] } }

/-- A concrete trap used in dispatch witnesses. -/
def witTrap : Trap :=
  { Data := { Enterprise := "1.3.6.1.4.1.546", AgentAddress := "10.0.0.2", GenericTrap := 6,
              SpecificTrap := 1, Timestamp := 0 },
    SrcIP := "10.0.0.1", Version := SnmpVersion.v2c, Hostname := "h",
    TrapNumber := 1, Dropped := false }

/-- A match-all break filter. -/
def witBreakFilter : TrapmuxFilter :=
  { emptyFilter with matchAll := true, ActionName := "drop",
                     actionType := ActionType.actionBreak }

/-- A match-all plugin filter with break_after set. -/
def witPluginFilter : TrapmuxFilter :=
  { emptyFilter with matchAll := true, ActionName := "sink",
                     actionType := ActionType.actionPlugin, plugin := some "sink",
                     BreakAfter := true }

/-- A plugin-bound entry for the plugin_error_actions list. -/
def witErrFilter : TrapmuxFilter :=
  { emptyFilter with matchAll := true, ActionName := "errlog",
                     actionType := ActionType.actionPlugin, plugin := some "errlog" }

/-- A snapshot with one plugin filter and one plugin-error filter. -/
def witDispatchCfg : TrapmuxConfig :=
  { emptyConfig with Filters := [witPluginFilter], PluginErrorActions := [witErrFilter] }

/-- A snapshot whose first filter drops the trap (break_after) before a
second break filter is reached. -/
def witDispatchCfg2 : TrapmuxConfig :=
  { emptyConfig with Filters := [witPluginFilter, witBreakFilter],
                     PluginErrorActions := [witErrFilter] }

/-- A dispatch state holding an undropped trap. -/
def witDState : DState := { trap := witTrap, droppedCount := 0, events := [] }

/-- A packet of the given version used in handler witnesses. -/
def witPacket (v : SnmpVersion) : SnmpPacket := ⟨v, "1.3.6.1.4.1.546", "10.0.0.9", 6, 0, 0⟩

/-- Three received packets: v1, v2c (to be ignored), v1. -/
def witPackets : List (SnmpPacket × String) :=
  [(witPacket SnmpVersion.v1, "10.0.0.1"), (witPacket SnmpVersion.v2c, "10.0.0.2"),
   (witPacket SnmpVersion.v1, "10.0.0.3")]

/-- A snapshot that ignores SNMP v2c. -/
def cfgIgnoreV2c : TrapmuxConfig :=
  { emptyConfig with TrapReceiverSettings :=
      { emptyListener with IgnoreVersions := [SnmpVersion.v2c] } }

/-- A filter stanza whose only present field is the source IP. -/
def c7WitFilter : TrapmuxFilter := { emptyFilter with SourceIp := "10.1.2.3" }

/-- The filter record assembled from `c7WitFilter`. -/
def c7WitOut : TrapmuxFilter :=
  match addFilterObjs extNoop c7WitFilter [] 0 with
  | Except.ok g => g
  | Except.error _ => emptyFilter

/-- A config document with one ipset (`good`) and one filter referencing it. -/
def ext8Cfg : TrapmuxConfig :=
  { emptyConfig with
    IpSets_str := [[("good", ["1.2.3.4"])]],
    Filters := [{ emptyFilter with SourceIp := "ipset:good", ActionName := "drop" }] }

/-- External collaborators whose config loader returns `ext8Cfg`. -/
def ext8 : Ext := { extNoop with loadConfigJson := Except.ok ext8Cfg }

/-- The snapshot published by `getConfig ext8 none`. -/
def cfg8out : TrapmuxConfig :=
  match (getConfig ext8 none).1 with
  | some c => c
  | none => emptyConfig

/-- A previously published snapshot whose only bound plugin sits in the
plugin_error_actions list (its main filter list holds a break filter). -/
def cexOldCfg : TrapmuxConfig :=
  { emptyConfig with teConfigured := true, Filters := [witBreakFilter],
                     PluginErrorActions := [witErrFilter] }

/-- A previously published snapshot with two plugin-bound filters in the
main list (around a break filter) and one in the plugin_error_actions list. -/
def cexOldCfg2 : TrapmuxConfig :=
  { emptyConfig with teConfigured := true,
                     Filters := [witPluginFilter, witBreakFilter, witErrFilter],
                     PluginErrorActions := [witErrFilter] }

/-- Like `ext8`, but every plugin close reports an error. -/
def ext5 : Ext := { ext8 with pluginCloseErr := fun _ => true }

/-- The configuration assembled (but not yet published) when `ext5` reloads
over `cexOldCfg2`. -/
def cfg5asm : TrapmuxConfig :=
  match assembleConfig ext5 (some cexOldCfg2) with
  | Except.ok c => c
  | Except.error _ => emptyConfig

/-- C3: for a configuration whose v3 msg_flags include the Auth bit, snapshot
assembly is claimed to fail unless the auth protocol is not NoAuth.  The code
checks `(MsgFlags & AuthPriv) == 1`, which is false for AuthPriv (3 & 3 = 3),
so validateSnmpV3Args ACCEPTS msg_flags = AuthPriv with auth protocol NoAuth
(first conjunct), although AuthPriv has the Auth bit set (third conjunct) and
the protocol decodes to NoAuth (fourth conjunct).  The neighbouring cases
behave as claimed: AuthNoPriv with NoAuth is rejected, and AuthPriv with SHA
but NoPriv privacy is rejected, so exactly the AuthPriv/NoAuth combination
escapes the check the code's own error message announces. -/
theorem validateSnmpV3Args_accepts_authpriv_with_noauth :
    exceptIsOk (validateSnmpV3Args extNoop v3AuthPrivNoAuth) = true ∧
    msgFlagsOfStr v3AuthPrivNoAuth.MsgFlags_str = some AuthPriv ∧
    AuthPriv &&& AuthNoPriv = 1 ∧
    authProtoOfStr v3AuthPrivNoAuth.AuthProto_str = some NoAuth ∧
    exceptIsOk (validateSnmpV3Args extNoop v3AuthNoPrivNoAuth) = false ∧
    exceptIsOk (validateSnmpV3Args extNoop v3AuthPrivSha) = false := by
  decide

theorem checkIps_isOk (ipsName : String) (ips : List String) :
    exceptIsOk (checkIps ipsName ips) = ips.all (fun ip => ipReMatches ip) := by
  induction ips with
  | nil => simp [checkIps, exceptIsOk]
  | cons ip rest ih =>
    cases h : ipReMatches ip with
    | false => simp [checkIps, h, exceptIsOk]
    | true =>
      cases hrest : checkIps ipsName rest with
      | error e =>
        rw [hrest] at ih
        simp [checkIps, h, hrest, exceptIsOk] at ih ⊢
        exact ih
      | ok v =>
        rw [hrest] at ih
        simp [checkIps, h, hrest, exceptIsOk] at ih ⊢
        exact ih

theorem checkIps_error_char (ipsName : String) (ips : List String) :
    ∀ e, checkIps ipsName ips = Except.error e →
    ∃ ip, ip ∈ ips ∧ ipReMatches ip = false ∧ e = ipErrMsg ip ipsName := by
  induction ips with
  | nil => intro e h; simp [checkIps] at h
  | cons ip rest ih =>
    intro e h
    cases hr : ipReMatches ip with
    | false =>
      simp [checkIps, hr] at h
      exact ⟨ip, by simp, hr, h.symm⟩
    | true =>
      cases hrest : checkIps ipsName rest with
      | error e2 =>
        simp [checkIps, hr, hrest] at h
        rcases ih e2 hrest with ⟨ip2, hmem, hbad, hmsg⟩
        exact ⟨ip2, by simp [hmem], hbad, by rw [← h]; exact hmsg⟩
      | ok v => simp [checkIps, hr, hrest] at h

theorem addIpSetStanza_isOk (entries : List (String × List String)) :
    ∀ cfg : TrapmuxConfig, exceptIsOk (addIpSetStanza entries cfg) =
      entries.all (fun p => p.2.all (fun ip => ipReMatches ip)) := by
  induction entries with
  | nil => intro cfg; simp [addIpSetStanza, exceptIsOk]
  | cons p rest ih =>
    intro cfg
    obtain ⟨ipsName, ips⟩ := p
    have h1 := checkIps_isOk ipsName ips
    cases hchk : checkIps ipsName ips with
    | error e =>
      rw [hchk] at h1
      simp only [exceptIsOk] at h1
      simp only [addIpSetStanza, hchk, List.all_cons]
      rw [← h1]
      simp [exceptIsOk]
    | ok good =>
      rw [hchk] at h1
      simp only [exceptIsOk] at h1
      simp only [addIpSetStanza, hchk, List.all_cons, ih]
      rw [← h1]
      simp

theorem addIpSetStanza_error_char (entries : List (String × List String)) :
    ∀ (cfg : TrapmuxConfig) (e : String), addIpSetStanza entries cfg = Except.error e →
    ∃ ipsName ips ip, (ipsName, ips) ∈ entries ∧ ip ∈ ips ∧
      ipReMatches ip = false ∧ e = ipErrMsg ip ipsName := by
  induction entries with
  | nil => intro cfg e h; simp [addIpSetStanza] at h
  | cons p rest ih =>
    intro cfg e h
    obtain ⟨ipsName, ips⟩ := p
    cases hchk : checkIps ipsName ips with
    | error e2 =>
      simp [addIpSetStanza, hchk] at h
      rcases checkIps_error_char ipsName ips e2 hchk with ⟨ip, hmem, hbad, hmsg⟩
      exact ⟨ipsName, ips, ip, by simp, hmem, hbad, by rw [← h]; exact hmsg⟩
    | ok good =>
      simp only [addIpSetStanza, hchk] at h
      rcases ih _ e h with ⟨n2, i2, ip2, hmem, hip, hbad, hmsg⟩
      exact ⟨n2, i2, ip2, by simp [hmem], hip, hbad, hmsg⟩

theorem addIpSetsLoop_isOk (stanzas : List (List (String × List String))) :
    ∀ cfg : TrapmuxConfig, exceptIsOk (addIpSetsLoop stanzas cfg) =
      stanzas.all (fun st => st.all (fun p => p.2.all (fun ip => ipReMatches ip))) := by
  induction stanzas with
  | nil => intro cfg; simp [addIpSetsLoop, exceptIsOk]
  | cons st rest ih =>
    intro cfg
    have h1 := addIpSetStanza_isOk st cfg
    cases hst : addIpSetStanza st cfg with
    | error e =>
      rw [hst] at h1
      simp only [exceptIsOk] at h1
      simp only [addIpSetsLoop, hst, List.all_cons]
      rw [← h1]
      simp [exceptIsOk]
    | ok c2 =>
      rw [hst] at h1
      simp only [exceptIsOk] at h1
      simp only [addIpSetsLoop, hst, List.all_cons, ih]
      rw [← h1]
      simp

theorem addIpSetsLoop_error_char (stanzas : List (List (String × List String))) :
    ∀ (cfg : TrapmuxConfig) (e : String), addIpSetsLoop stanzas cfg = Except.error e →
    ∃ st ipsName ips ip, st ∈ stanzas ∧ (ipsName, ips) ∈ st ∧ ip ∈ ips ∧
      ipReMatches ip = false ∧ e = ipErrMsg ip ipsName := by
  induction stanzas with
  | nil => intro cfg e h; simp [addIpSetsLoop] at h
  | cons st rest ih =>
    intro cfg e h
    cases hst : addIpSetStanza st cfg with
    | error e2 =>
      simp [addIpSetsLoop, hst] at h
      rcases addIpSetStanza_error_char st cfg e2 hst with ⟨n, i, ip, hmem, hip, hbad, hmsg⟩
      exact ⟨st, n, i, ip, by simp, hmem, hip, hbad, by rw [← h]; exact hmsg⟩
    | ok c2 =>
      simp only [addIpSetsLoop, hst] at h
      rcases ih _ e h with ⟨st2, n, i, ip, hmem, hm2, hip, hbad, hmsg⟩
      exact ⟨st2, n, i, ip, by simp [hmem], hm2, hip, hbad, hmsg⟩

/-- C9: building the IP-set registry accepts exactly the literals matched by
the anchored pattern `^(\d{1,3}\.){3}\d{1,3}$` — in particular the
out-of-range quad 999.1.1.1 is accepted — and a non-matching literal makes
snapshot assembly fail with the error that names both the offending ipset
and the offending address. -/
theorem addIpSets_ipRe (cfg : TrapmuxConfig) :
    (exceptIsOk (addIpSets cfg) = true ↔
      ∀ st ∈ cfg.IpSets_str, ∀ p ∈ st, ∀ ip ∈ p.2, ipReMatches ip = true) ∧
    ipReMatches ("999.1.1.1") = true ∧
    (∀ e, addIpSets cfg = Except.error e →
      ∃ st ipsName ips ip, st ∈ cfg.IpSets_str ∧ (ipsName, ips) ∈ st ∧ ip ∈ ips ∧
        ipReMatches ip = false ∧ e = ipErrMsg ip ipsName) := by
  refine ⟨?_, by decide, ?_⟩
  · rw [addIpSets, addIpSetsLoop_isOk]
    simp [List.all_eq_true]
  · intro e he
    exact addIpSetsLoop_error_char cfg.IpSets_str cfg e he

/-- Witness for C9 at the concrete configuration `cfgBadIp`, whose ipset
`set1` contains the malformed literal `1.2.3`. -/
theorem addIpSets_ipRe_witness :
    ∃ st ipsName ips ip, st ∈ cfgBadIp.IpSets_str ∧ (ipsName, ips) ∈ st ∧ ip ∈ ips ∧
      ipReMatches ip = false ∧ ipErrMsg ("1.2.3") ("set1") = ipErrMsg ip ipsName :=
  (addIpSets_ipRe cfgBadIp).2.2 (ipErrMsg ("1.2.3") ("set1")) (by decide)

theorem flagAppend_mem (acc : List SnmpVersion) (v w : SnmpVersion) (flag : Bool)
    (hflag : flag = true ↔ v ∈ acc) :
    (w ∈ (if flag then acc else acc ++ [v])) ↔ (w ∈ acc ∨ w = v) := by
  cases flag with
  | false =>
    rw [if_neg (by simp)]
    simp [List.mem_append]
  | true =>
    rw [if_pos rfl]
    have hv : v ∈ acc := hflag.mp rfl
    exact ⟨Or.inl, fun h2 => h2.elim id (fun he => he ▸ hv)⟩

theorem flagAppend_count (acc : List SnmpVersion) (v w : SnmpVersion) (flag : Bool)
    (hflag : flag = true ↔ v ∈ acc) (h : ∀ u, acc.count u ≤ 1) :
    (if flag then acc else acc ++ [v]).count w ≤ 1 := by
  cases flag with
  | true => rw [if_pos rfl]; exact h w
  | false =>
    rw [if_neg (by simp), List.count_append]
    by_cases hv : w = v
    · subst hv
      have hnm : w ∉ acc := fun hm => absurd (hflag.mpr hm) (by simp)
      have hz : acc.count w = 0 := List.count_eq_zero.mpr hnm
      simp [hz, List.count_singleton]
    · have hz : List.count w [v] = 0 := List.count_eq_zero.mpr (by simp [hv])
      have := h w
      omega

theorem ivLoop_bad_token (toks : List String) :
    ∀ (acc : List SnmpVersion) (i1 i2 i3 : Bool),
    (∃ t ∈ toks, tokenVersion t = none) →
    ∃ e, ivLoop toks acc i1 i2 i3 = Except.error e := by
  induction toks with
  | nil => intro acc i1 i2 i3 h; simp at h
  | cons t rest ih =>
    intro acc i1 i2 i3 h
    cases htok : tokenVersion t with
    | none =>
      refine ⟨"unsupported or invalid value (" ++ t ++ ") for general:ignore_version", ?_⟩
      simp [ivLoop, htok]
    | some v =>
      have hrest : ∃ t2 ∈ rest, tokenVersion t2 = none := by
        rcases h with ⟨t2, hmem, hn⟩
        rcases List.mem_cons.mp hmem with h1 | h1
        · subst h1; rw [htok] at hn; cases hn
        · exact ⟨t2, h1, hn⟩
      cases v
      · simpa [ivLoop, htok] using ih _ true i2 i3 hrest
      · simpa [ivLoop, htok] using ih _ i1 true i3 hrest
      · simpa [ivLoop, htok] using ih _ i1 i2 true hrest

theorem ivLoop_ok_char (toks : List String) :
    ∀ (acc : List SnmpVersion) (i1 i2 i3 : Bool),
    (i1 = true ↔ SnmpVersion.v1 ∈ acc) →
    (i2 = true ↔ SnmpVersion.v2c ∈ acc) →
    (i3 = true ↔ SnmpVersion.v3 ∈ acc) →
    (∀ t ∈ toks, (tokenVersion t).isSome) →
    ∃ acc2, ivLoop toks acc i1 i2 i3 = Except.ok acc2 ∧
      (∀ v, v ∈ acc2 ↔ (v ∈ acc ∨ ∃ t ∈ toks, tokenVersion t = some v)) ∧
      ((∀ v, acc.count v ≤ 1) → ∀ v, acc2.count v ≤ 1) := by
  induction toks with
  | nil =>
    intro acc i1 i2 i3 h1 h2 h3 hall
    exact ⟨acc, rfl, by simp, fun h v => h v⟩
  | cons t rest ih =>
    intro acc i1 i2 i3 h1 h2 h3 hall
    cases htok : tokenVersion t with
    | none =>
      have := hall t (by simp)
      rw [htok] at this
      simp at this
    | some v =>
      have hrest : ∀ t2 ∈ rest, (tokenVersion t2).isSome :=
        fun t2 h => hall t2 (by simp [h])
      have hself : ∀ (a : List SnmpVersion) (fl : Bool), (fl = true ↔ v ∈ a) →
          (true = true ↔ v ∈ (if fl then a else a ++ [v])) :=
        fun a fl hf => ⟨fun _ => (flagAppend_mem a v v fl hf).mpr (Or.inr rfl), fun _ => rfl⟩
      have hother : ∀ (a : List SnmpVersion) (w : SnmpVersion) (fl flw : Bool),
          (fl = true ↔ v ∈ a) → (flw = true ↔ w ∈ a) → w ≠ v →
          (flw = true ↔ w ∈ (if fl then a else a ++ [v])) := by
        intro a w fl flw hf hw hne
        rw [flagAppend_mem a v w fl hf]
        exact ⟨fun h => Or.inl (hw.mp h), fun h => h.elim hw.mpr (fun he => absurd he hne)⟩
      cases v with
      | v1 =>
        rcases ih (if i1 then acc else acc ++ [SnmpVersion.v1]) true i2 i3
            (hself acc i1 h1)
            (hother acc SnmpVersion.v2c i1 i2 h1 h2 (by simp))
            (hother acc SnmpVersion.v3 i1 i3 h1 h3 (by simp))
            hrest with ⟨acc2, hrun, hmem, hcnt⟩
        refine ⟨acc2, by simp [ivLoop, htok]; exact hrun, ?_, ?_⟩
        · intro w
          rw [hmem w, flagAppend_mem acc SnmpVersion.v1 w i1 h1]
          simp only [List.mem_cons, htok]
          constructor
          · rintro ((h | h) | ⟨t2, hm, he⟩)
            · exact Or.inl h
            · exact Or.inr ⟨t, Or.inl rfl, by rw [htok, h]⟩
            · exact Or.inr ⟨t2, Or.inr hm, he⟩
          · rintro (h | ⟨t2, (rfl | hm), he⟩)
            · exact Or.inl (Or.inl h)
            · rw [htok] at he; exact Or.inl (Or.inr (by injection he with he2; exact he2.symm))
            · exact Or.inr ⟨t2, hm, he⟩
        · intro hc
          exact hcnt (fun w => flagAppend_count acc SnmpVersion.v1 w i1 h1 hc)
      | v2c =>
        rcases ih (if i2 then acc else acc ++ [SnmpVersion.v2c]) i1 true i3
            (hother acc SnmpVersion.v1 i2 i1 h2 h1 (by simp))
            (hself acc i2 h2)
            (hother acc SnmpVersion.v3 i2 i3 h2 h3 (by simp))
            hrest with ⟨acc2, hrun, hmem, hcnt⟩
        refine ⟨acc2, by simp [ivLoop, htok]; exact hrun, ?_, ?_⟩
        · intro w
          rw [hmem w, flagAppend_mem acc SnmpVersion.v2c w i2 h2]
          simp only [List.mem_cons, htok]
          constructor
          · rintro ((h | h) | ⟨t2, hm, he⟩)
            · exact Or.inl h
            · exact Or.inr ⟨t, Or.inl rfl, by rw [htok, h]⟩
            · exact Or.inr ⟨t2, Or.inr hm, he⟩
          · rintro (h | ⟨t2, (rfl | hm), he⟩)
            · exact Or.inl (Or.inl h)
            · rw [htok] at he; exact Or.inl (Or.inr (by injection he with he2; exact he2.symm))
            · exact Or.inr ⟨t2, hm, he⟩
        · intro hc
          exact hcnt (fun w => flagAppend_count acc SnmpVersion.v2c w i2 h2 hc)
      | v3 =>
        rcases ih (if i3 then acc else acc ++ [SnmpVersion.v3]) i1 i2 true
            (hother acc SnmpVersion.v1 i3 i1 h3 h1 (by simp))
            (hother acc SnmpVersion.v2c i3 i2 h3 h2 (by simp))
            (hself acc i3 h3)
            hrest with ⟨acc2, hrun, hmem, hcnt⟩
        refine ⟨acc2, by simp [ivLoop, htok]; exact hrun, ?_, ?_⟩
        · intro w
          rw [hmem w, flagAppend_mem acc SnmpVersion.v3 w i3 h3]
          simp only [List.mem_cons, htok]
          constructor
          · rintro ((h | h) | ⟨t2, hm, he⟩)
            · exact Or.inl h
            · exact Or.inr ⟨t, Or.inl rfl, by rw [htok, h]⟩
            · exact Or.inr ⟨t2, Or.inr hm, he⟩
          · rintro (h | ⟨t2, (rfl | hm), he⟩)
            · exact Or.inl (Or.inl h)
            · rw [htok] at he; exact Or.inl (Or.inr (by injection he with he2; exact he2.symm))
            · exact Or.inr ⟨t2, hm, he⟩
        · intro hc
          exact hcnt (fun w => flagAppend_count acc SnmpVersion.v3 w i3 h3 hc)

theorem length_eq_count_sum (l : List SnmpVersion) :
    l.length = l.count SnmpVersion.v1 + l.count SnmpVersion.v2c + l.count SnmpVersion.v3 := by
  induction l with
  | nil => simp
  | cons h t ih =>
    cases h <;> simp [List.count_cons, ih] <;> omega

/-- C6: validation of the ignored-versions list accepts each entry
case-insensitively from the tokens {v1,1}, {v2c,2c,2}, {v3,3} (last conjunct
checks representatives and a rejected token), fails on any other token (first
conjunct), collapses duplicates so each version appears at most once in the
result, makes a version ignored exactly when one of its tokens occurs, and —
for well-formed token lists — fails exactly when all three SNMP versions end
up ignored, so any proper subset is accepted (middle conjuncts). -/
theorem validateIgnoreVersions_correct (cfg : TrapmuxConfig)
    (hinit : cfg.TrapReceiverSettings.IgnoreVersions = []) :
    ((∃ t ∈ cfg.TrapReceiverSettings.IgnoreVersions_str, tokenVersion t = none) →
        exceptIsOk (validateIgnoreVersions cfg) = false) ∧
    ((∀ t ∈ cfg.TrapReceiverSettings.IgnoreVersions_str, (tokenVersion t).isSome) →
      ((exceptIsOk (validateIgnoreVersions cfg) = true) ↔
        ¬((∃ t ∈ cfg.TrapReceiverSettings.IgnoreVersions_str,
              tokenVersion t = some SnmpVersion.v1) ∧
          (∃ t ∈ cfg.TrapReceiverSettings.IgnoreVersions_str,
              tokenVersion t = some SnmpVersion.v2c) ∧
          (∃ t ∈ cfg.TrapReceiverSettings.IgnoreVersions_str,
              tokenVersion t = some SnmpVersion.v3))) ∧
      (∀ cfg2, validateIgnoreVersions cfg = Except.ok cfg2 →
        (∀ v, cfg2.TrapReceiverSettings.IgnoreVersions.count v ≤ 1) ∧
        (∀ v, v ∈ cfg2.TrapReceiverSettings.IgnoreVersions ↔
          ∃ t ∈ cfg.TrapReceiverSettings.IgnoreVersions_str, tokenVersion t = some v))) ∧
    (tokenVersion ("V1") = some SnmpVersion.v1 ∧ tokenVersion ("v2C") = some SnmpVersion.v2c ∧
     tokenVersion ("2") = some SnmpVersion.v2c ∧ tokenVersion ("V3") = some SnmpVersion.v3 ∧
     tokenVersion ("v4") = none) := by
  refine ⟨?_, ?_, by decide⟩
  · intro hbad
    rcases ivLoop_bad_token cfg.TrapReceiverSettings.IgnoreVersions_str
        cfg.TrapReceiverSettings.IgnoreVersions false false false hbad with ⟨e, he⟩
    simp [validateIgnoreVersions, he, exceptIsOk]
  · intro hall
    rcases ivLoop_ok_char cfg.TrapReceiverSettings.IgnoreVersions_str
        cfg.TrapReceiverSettings.IgnoreVersions false false false
        (by simp [hinit]) (by simp [hinit]) (by simp [hinit]) hall with ⟨vs, hrun, hmem, hcnt⟩
    have hcnt' : ∀ v, vs.count v ≤ 1 := hcnt (by simp [hinit])
    have hmem' : ∀ v, v ∈ vs ↔
        ∃ t ∈ cfg.TrapReceiverSettings.IgnoreVersions_str, tokenVersion t = some v := by
      intro v
      rw [hmem v]
      simp [hinit]
    have key : (vs.length > 2) ↔
        (SnmpVersion.v1 ∈ vs ∧ SnmpVersion.v2c ∈ vs ∧ SnmpVersion.v3 ∈ vs) := by
      have l1 := hcnt' SnmpVersion.v1
      have l2 := hcnt' SnmpVersion.v2c
      have l3 := hcnt' SnmpVersion.v3
      have hlen := length_eq_count_sum vs
      rw [← List.count_pos_iff, ← List.count_pos_iff, ← List.count_pos_iff]
      omega
    constructor
    · by_cases hgt : vs.length > 2
      · have : exceptIsOk (validateIgnoreVersions cfg) = false := by
          simp [validateIgnoreVersions, hrun, hgt, exceptIsOk]
        rw [this]
        simp only [Bool.false_eq_true, false_iff, not_not]
        rcases key.mp hgt with ⟨k1, k2, k3⟩
        exact ⟨(hmem' _).mp k1, (hmem' _).mp k2, (hmem' _).mp k3⟩
      · have : exceptIsOk (validateIgnoreVersions cfg) = true := by
          simp [validateIgnoreVersions, hrun, hgt, exceptIsOk]
        rw [this]
        simp only [true_iff]
        intro ⟨k1, k2, k3⟩
        exact hgt (key.mpr ⟨(hmem' _).mpr k1, (hmem' _).mpr k2, (hmem' _).mpr k3⟩)
    · intro cfg2 hok
      by_cases hgt : vs.length > 2
      · simp [validateIgnoreVersions, hrun, hgt] at hok
      · simp only [validateIgnoreVersions, hrun, if_neg hgt] at hok
        have hvs : cfg2.TrapReceiverSettings.IgnoreVersions = vs := by
          cases hok
          simp
        rw [hvs]
        exact ⟨hcnt', hmem'⟩

/-- Witness for C6 at the concrete configuration `ivWitCfg`, whose token list
["V1", "1", "2c"] has mixed case, a duplicate of v1, and covers only a proper
subset of the versions, so validation succeeds. -/
theorem validateIgnoreVersions_correct_witness :
    exceptIsOk (validateIgnoreVersions ivWitCfg) = true :=
  (((validateIgnoreVersions_correct ivWitCfg rfl).2.1 (by decide)).1).mpr (by decide)

theorem runFilters_inert (ext : Ext) (cfg : TrapmuxConfig) :
    ∀ (fs : List TrapmuxFilter) (i : Nat) (s : DState), s.trap.Dropped = true →
    runFilters ext cfg i fs s = s := by
  intro fs
  induction fs with
  | nil => intro i s h; rfl
  | cons f rest ih =>
    intro i s h
    have hstep : processTrapStep ext cfg i f s = s := by
      simp [processTrapStep, h]
    rw [runFilters, hstep]
    exact ih (i + 1) s h

theorem runFilters_append (ext : Ext) (cfg : TrapmuxConfig) :
    ∀ (fs1 fs2 : List TrapmuxFilter) (i : Nat) (s : DState),
    runFilters ext cfg i (fs1 ++ fs2) s =
      runFilters ext cfg (i + fs1.length) fs2 (runFilters ext cfg i fs1 s) := by
  intro fs1
  induction fs1 with
  | nil => intro fs2 i s; simp [runFilters]
  | cons f rest ih =>
    intro fs2 i s
    rw [List.cons_append, runFilters, runFilters, ih, List.length_cons]
    congr 1
    omega

theorem processTrapStep_break (ext : Ext) (cfg : TrapmuxConfig) (i : Nat)
    (f : TrapmuxFilter) (s : DState)
    (hd : s.trap.Dropped = false)
    (hm : (f.matchAll || isFilterMatch ext cfg.IpSets f s.trap) = true)
    (hb : f.actionType = ActionType.actionBreak) :
    (processTrapStep ext cfg i f s).trap.Dropped = true ∧
    (processTrapStep ext cfg i f s).droppedCount = s.droppedCount + 1 ∧
    (processTrapStep ext cfg i f s).events = s.events ++ [DispatchEv.matchChecked i] := by
  simp [processTrapStep, hd, hm, hb]

theorem processTrapStep_breakAfter (ext : Ext) (cfg : TrapmuxConfig) (i : Nat)
    (f : TrapmuxFilter) (s : DState)
    (hd : s.trap.Dropped = false)
    (hm : (f.matchAll || isFilterMatch ext cfg.IpSets f s.trap) = true)
    (hb : f.actionType ≠ ActionType.actionBreak)
    (hba : f.BreakAfter = true) :
    (processTrapStep ext cfg i f s).trap.Dropped = true ∧
    (processTrapStep ext cfg i f s).droppedCount = s.droppedCount + 1 := by
  simp [processTrapStep, hd, hm, hb, hba, apply_ite]

/-- C1: once any filter sets the trap's dropped flag during a dispatch, no
subsequent filter is considered at all — its matchAll/isFilterMatch test is
not evaluated and its action is not invoked, so the dispatch result equals
the result of the prefix that performed the drop, with no further events
(first conjunct; the second is the generalised loop fact it rests on) — a
matching break/drop filter on an undropped trap sets Dropped, increments the
DroppedTraps counter and runs no action (third conjunct), and a matching
filter with break_after sets Dropped and increments the counter whatever its
action type and whatever its action returned, the plugin-error outcome being
universally quantified over `ext` (fourth conjunct). -/
theorem processTrap_short_circuit (ext : Ext) (cfg : TrapmuxConfig) :
    (∀ (fs1 fs2 : List TrapmuxFilter) (t : Trap),
      cfg.Filters = fs1 ++ fs2 →
      (runFilters ext cfg 0 fs1 { trap := t, droppedCount := 0, events := [] }).trap.Dropped
        = true →
      processTrap ext cfg t =
        runFilters ext cfg 0 fs1 { trap := t, droppedCount := 0, events := [] }) ∧
    (∀ (fs : List TrapmuxFilter) (i : Nat) (s : DState), s.trap.Dropped = true →
      runFilters ext cfg i fs s = s) ∧
    (∀ (i : Nat) (f : TrapmuxFilter) (s : DState), s.trap.Dropped = false →
      (f.matchAll || isFilterMatch ext cfg.IpSets f s.trap) = true →
      f.actionType = ActionType.actionBreak →
      (processTrapStep ext cfg i f s).trap.Dropped = true ∧
      (processTrapStep ext cfg i f s).droppedCount = s.droppedCount + 1 ∧
      (processTrapStep ext cfg i f s).events = s.events ++ [DispatchEv.matchChecked i]) ∧
    (∀ (i : Nat) (f : TrapmuxFilter) (s : DState), s.trap.Dropped = false →
      (f.matchAll || isFilterMatch ext cfg.IpSets f s.trap) = true →
      f.actionType ≠ ActionType.actionBreak → f.BreakAfter = true →
      (processTrapStep ext cfg i f s).trap.Dropped = true ∧
      (processTrapStep ext cfg i f s).droppedCount = s.droppedCount + 1) := by
  refine ⟨?_, runFilters_inert ext cfg,
          processTrapStep_break ext cfg, processTrapStep_breakAfter ext cfg⟩
  intro fs1 fs2 t hsplit hdropped
  rw [processTrap, hsplit, runFilters_append]
  exact runFilters_inert ext cfg fs2 (0 + fs1.length) _ hdropped

/-- Witness for C1: with the concrete snapshot `witDispatchCfg2` the first
filter (plugin action, break_after) drops `witTrap`, so the dispatch ignores
the second filter entirely; a break filter and a break_after filter each
drop the trap and bump the counter from the concrete state `witDState`. -/
theorem processTrap_short_circuit_witness :
    (processTrap extNoop witDispatchCfg2 witTrap =
      runFilters extNoop witDispatchCfg2 0 [witPluginFilter]
        { trap := witTrap, droppedCount := 0, events := [] }) ∧
    ((processTrapStep extNoop witDispatchCfg2 0 witBreakFilter witDState).trap.Dropped = true ∧
     (processTrapStep extNoop witDispatchCfg2 0 witBreakFilter witDState).droppedCount =
       witDState.droppedCount + 1 ∧
     (processTrapStep extNoop witDispatchCfg2 0 witBreakFilter witDState).events =
       witDState.events ++ [DispatchEv.matchChecked 0]) ∧
    ((processTrapStep extNoop witDispatchCfg2 0 witPluginFilter witDState).trap.Dropped = true ∧
     (processTrapStep extNoop witDispatchCfg2 0 witPluginFilter witDState).droppedCount =
       witDState.droppedCount + 1) :=
  ⟨(processTrap_short_circuit extNoop witDispatchCfg2).1 [witPluginFilter] [witBreakFilter]
      witTrap (by decide) (by decide),
   (processTrap_short_circuit extNoop witDispatchCfg2).2.2.1 0 witBreakFilter witDState
      (by decide) (by decide) (by decide),
   (processTrap_short_circuit extNoop witDispatchCfg2).2.2.2 0 witPluginFilter witDState
      (by decide) (by decide) (by decide) (by decide)⟩

theorem count_errActionRun_range (t : Trap) (j n : Nat) :
    ((List.range n).map (fun k => DispatchEv.errActionRun k t)).count
      (DispatchEv.errActionRun j t) = if j < n then 1 else 0 := by
  induction n with
  | zero => simp
  | succ n ih =>
    rw [List.range_succ, List.map_append, List.count_append, ih]
    have hinj : (DispatchEv.errActionRun n t = DispatchEv.errActionRun j t) ↔ n = j := by
      simp
    simp only [List.map_cons, List.map_nil, List.count_singleton', hinj]
    split_ifs <;> omega

/-- C4: when a matching plugin action errors during a dispatch, the step's
event trace appends exactly one processAction spawn per plugin_error_filters
entry, all against the same trap — entry j's count rises by exactly one
(second conjunct) and nothing else is appended (first conjunct, an equality
of traces), so a failing plugin-error action cannot retrigger the list
(universally over `ext`, hence whatever the error-filter actions return);
the outer chain is not halted by the error: the trap stays undropped unless
the filter's own break_after flag is set, and the counter moves only with
break_after (last two conjuncts). -/
theorem processTrap_plugin_error_filters (ext : Ext) (cfg : TrapmuxConfig) :
    ∀ (i : Nat) (f : TrapmuxFilter) (s : DState),
    s.trap.Dropped = false →
    (f.matchAll || isFilterMatch ext cfg.IpSets f s.trap) = true →
    f.actionType = ActionType.actionPlugin →
    ext.pluginProcessTrapErr f.ActionName s.trap = true →
    ((processTrapStep ext cfg i f s).events =
      s.events ++ [DispatchEv.matchChecked i, DispatchEv.actionRun i] ++
        (List.range cfg.PluginErrorActions.length).map
          (fun j => DispatchEv.errActionRun j s.trap)) ∧
    (∀ j, j < cfg.PluginErrorActions.length →
      (processTrapStep ext cfg i f s).events.count (DispatchEv.errActionRun j s.trap) =
        s.events.count (DispatchEv.errActionRun j s.trap) + 1) ∧
    ((processTrapStep ext cfg i f s).trap.Dropped = f.BreakAfter) ∧
    ((processTrapStep ext cfg i f s).droppedCount =
      s.droppedCount + (if f.BreakAfter then 1 else 0)) := by
  intro i f s hd hm hp herr
  have hev : (processTrapStep ext cfg i f s).events =
      s.events ++ [DispatchEv.matchChecked i, DispatchEv.actionRun i] ++
        (List.range cfg.PluginErrorActions.length).map
          (fun j => DispatchEv.errActionRun j s.trap) := by
    simp [processTrapStep, hd, hm, hp, processAction, herr, apply_ite]
  refine ⟨hev, ?_, ?_, ?_⟩
  · intro j hj
    rw [hev, List.count_append, List.count_append, count_errActionRun_range]
    have h2 : ([DispatchEv.matchChecked i, DispatchEv.actionRun i]).count
        (DispatchEv.errActionRun j s.trap) = 0 := by
      simp [List.count_cons]
    rw [if_pos hj]
    omega
  · cases hba : f.BreakAfter <;>
      simp [processTrapStep, hd, hm, hp, processAction, herr, hba, apply_ite]
  · cases hba : f.BreakAfter <;>
      simp [processTrapStep, hd, hm, hp, processAction, herr, hba, apply_ite]

/-- Witness for C4: the concrete plugin filter `witPluginFilter` errors on
`witTrap` under `extNoop`, and the single entry of
`witDispatchCfg.PluginErrorActions` is spawned exactly once. -/
theorem processTrap_plugin_error_filters_witness :
    ((processTrapStep extNoop witDispatchCfg 0 witPluginFilter witDState).events =
      witDState.events ++ [DispatchEv.matchChecked 0, DispatchEv.actionRun 0] ++
        (List.range witDispatchCfg.PluginErrorActions.length).map
          (fun j => DispatchEv.errActionRun j witDState.trap)) ∧
    (∀ j, j < witDispatchCfg.PluginErrorActions.length →
      (processTrapStep extNoop witDispatchCfg 0 witPluginFilter witDState).events.count
          (DispatchEv.errActionRun j witDState.trap) =
        witDState.events.count (DispatchEv.errActionRun j witDState.trap) + 1) ∧
    ((processTrapStep extNoop witDispatchCfg 0 witPluginFilter witDState).trap.Dropped =
      witPluginFilter.BreakAfter) ∧
    ((processTrapStep extNoop witDispatchCfg 0 witPluginFilter witDState).droppedCount =
      witDState.droppedCount + (if witPluginFilter.BreakAfter then 1 else 0)) :=
  processTrap_plugin_error_filters extNoop witDispatchCfg 0 witPluginFilter witDState
    (by decide) (by decide) (by decide) (by decide)

theorem addSnmpFilterLoop_char (ln : Nat) :
    ∀ (toks : List String) (f f2 : TrapmuxFilter),
    addSnmpFilterLoop ln toks f = Except.ok f2 →
    f2.SnmpVersions = f.SnmpVersions ∧ f2.SourceIp = f.SourceIp ∧
    f2.AgentAddress = f.AgentAddress ∧ f2.GenericType = f.GenericType ∧
    f2.SpecificType = f.SpecificType ∧ f2.EnterpriseOid = f.EnterpriseOid ∧
    (∃ d, f2.matchers = f.matchers ++ d ∧ d.length = toks.length ∧
      (∀ m ∈ d, m.filterType = ParseType.parseTypeInt)) ∧
    (toks = [] → f2.matchAll = f.matchAll) ∧
    (toks ≠ [] → f2.matchAll = false) := by
  intro toks
  induction toks with
  | nil =>
    intro f f2 h
    rw [addSnmpFilterLoop] at h
    injection h with h
    subst h
    exact ⟨rfl, rfl, rfl, rfl, rfl, rfl, ⟨[], by simp, rfl, by simp⟩,
           fun _ => rfl, fun hne => absurd rfl hne⟩
  | cons t rest ih =>
    intro f f2 h
    rw [addSnmpFilterLoop] at h
    cases htok : tokenVersion t with
    | none => rw [htok] at h; cases h
    | some v =>
      rw [htok] at h
      rcases ih _ f2 h with ⟨h1, h2, h3, h4, h5, h6, ⟨d, hd, hlen, hty⟩, hnil, hcons⟩
      refine ⟨h1, h2, h3, h4, h5, h6,
        ⟨⟨FilterItem.filterByVersion, ParseType.parseTypeInt, FilterValue.version v⟩ :: d,
          ?_, ?_, ?_⟩, fun hne => absurd hne (List.cons_ne_nil t rest), fun _ => ?_⟩
      · rw [hd]
        simp
      · simp [hlen]
      · intro m hm
        rcases List.mem_cons.mp hm with hm1 | hm1
        · rw [hm1]
        · exact hty m hm1
      · by_cases hr : rest = []
        · subst hr; exact hnil rfl
        · exact hcons hr

theorem addIpFilterObj_char (ext : Ext) (f : TrapmuxFilter) (source : FilterItem)
    (entry : String) (ipSets : List (String × List String)) (ln : Nat) (f2 : TrapmuxFilter)
    (h : addIpFilterObj ext f source entry ipSets ln = Except.ok f2) :
    f2.SnmpVersions = f.SnmpVersions ∧ f2.SourceIp = f.SourceIp ∧
    f2.AgentAddress = f.AgentAddress ∧ f2.GenericType = f.GenericType ∧
    f2.SpecificType = f.SpecificType ∧ f2.EnterpriseOid = f.EnterpriseOid ∧
    ((entry = "" ∧ f2 = f) ∨
     (entry ≠ "" ∧ f2.matchAll = false ∧ ∃ m, f2.matchers = f.matchers ++ [m] ∧
       (m.filterType = ParseType.parseTypeIPSet →
         ∃ nm, m.filterValue = FilterValue.str nm ∧ (ipSets.lookup nm).isSome = true))) := by
  rw [addIpFilterObj] at h
  by_cases hemp : entry = ""
  · rw [if_pos hemp] at h
    injection h with h
    subst h
    exact ⟨rfl, rfl, rfl, rfl, rfl, rfl, Or.inl ⟨hemp, rfl⟩⟩
  · rw [if_neg hemp] at h
    by_cases hips : strHasPrefix entry ("ipset:") = true
    · rw [if_pos hips] at h
      by_cases hlk : (ipSets.lookup (entry.drop 6)).isSome = true
      · rw [if_pos hlk] at h
        injection h with h
        subst h
        exact ⟨rfl, rfl, rfl, rfl, rfl, rfl,
          Or.inr ⟨hemp, rfl, ⟨_, rfl, fun _ => ⟨entry.drop 6, rfl, hlk⟩⟩⟩⟩
      · rw [if_neg hlk] at h
        cases h
    · rw [if_neg hips] at h
      by_cases hre : strHasPrefix entry ("/") = true
      · rw [if_pos hre] at h
        cases hcomp : ext.compileRegex (entry.drop 1) with
        | ok re =>
          rw [hcomp] at h
          injection h with h
          subst h
          exact ⟨rfl, rfl, rfl, rfl, rfl, rfl,
            Or.inr ⟨hemp, rfl, ⟨_, rfl, fun habs => by simp at habs⟩⟩⟩
        | error e => rw [hcomp] at h; cases h
      · rw [if_neg hre] at h
        by_cases hsl : entry.toList.contains '/' = true
        · rw [if_pos hsl] at h
          cases hnet : ext.newNetwork entry with
          | ok nw =>
            rw [hnet] at h
            injection h with h
            subst h
            exact ⟨rfl, rfl, rfl, rfl, rfl, rfl,
              Or.inr ⟨hemp, rfl, ⟨_, rfl, fun habs => by simp at habs⟩⟩⟩
          | error e => rw [hnet] at h; cases h
        · rw [if_neg hsl] at h
          injection h with h
          subst h
          exact ⟨rfl, rfl, rfl, rfl, rfl, rfl,
            Or.inr ⟨hemp, rfl, ⟨_, rfl, fun habs => by simp at habs⟩⟩⟩

theorem addTrapTypeFilterObj_char (f : TrapmuxFilter) (source : FilterItem)
    (entry : Int) (ln : Nat) (f2 : TrapmuxFilter)
    (h : addTrapTypeFilterObj f source entry ln = Except.ok f2) :
    f2.SnmpVersions = f.SnmpVersions ∧ f2.SourceIp = f.SourceIp ∧
    f2.AgentAddress = f.AgentAddress ∧ f2.GenericType = f.GenericType ∧
    f2.SpecificType = f.SpecificType ∧ f2.EnterpriseOid = f.EnterpriseOid ∧
    ((entry = -1 ∧ f2 = f) ∨
     (entry ≠ -1 ∧ f2.matchAll = false ∧ ∃ m, f2.matchers = f.matchers ++ [m] ∧
       m.filterType = ParseType.parseTypeInt)) := by
  rw [addTrapTypeFilterObj] at h
  by_cases hm1 : entry = -1
  · rw [if_pos hm1] at h
    injection h with h
    subst h
    exact ⟨rfl, rfl, rfl, rfl, rfl, rfl, Or.inl ⟨hm1, rfl⟩⟩
  · rw [if_neg hm1] at h
    injection h with h
    subst h
    exact ⟨rfl, rfl, rfl, rfl, rfl, rfl, Or.inr ⟨hm1, rfl, ⟨_, rfl, rfl⟩⟩⟩

theorem addOidFilterObj_char (ext : Ext) (f : TrapmuxFilter) (oid : String) (ln : Nat)
    (f2 : TrapmuxFilter) (h : addOidFilterObj ext f oid ln = Except.ok f2) :
    f2.SnmpVersions = f.SnmpVersions ∧ f2.SourceIp = f.SourceIp ∧
    f2.AgentAddress = f.AgentAddress ∧ f2.GenericType = f.GenericType ∧
    f2.SpecificType = f.SpecificType ∧ f2.EnterpriseOid = f.EnterpriseOid ∧
    ((oid = "" ∧ f2 = f) ∨
     (oid ≠ "" ∧ f2.matchAll = false ∧ ∃ m, f2.matchers = f.matchers ++ [m] ∧
       m.filterType = ParseType.parseTypeRegex)) := by
  rw [addOidFilterObj] at h
  by_cases hemp : oid = ""
  · rw [if_pos hemp] at h
    injection h with h
    subst h
    exact ⟨rfl, rfl, rfl, rfl, rfl, rfl, Or.inl ⟨hemp, rfl⟩⟩
  · rw [if_neg hemp] at h
    cases hcomp : ext.compileRegex oid with
    | ok re =>
      rw [hcomp] at h
      injection h with h
      subst h
      exact ⟨rfl, rfl, rfl, rfl, rfl, rfl, Or.inr ⟨hemp, rfl, ⟨_, rfl, rfl⟩⟩⟩
    | error e => rw [hcomp] at h; cases h

theorem step_compose (ipSets : List (String × List String)) (f0 g g2 : TrapmuxFilter)
    (W P : Prop)
    (prevM : g.matchAll = true ↔ P)
    (prevD : ∃ d, g.matchers = f0.matchers ++ d ∧ (d = [] ↔ P) ∧
      ∀ m ∈ d, ipsetRefOk ipSets m)
    (hstep : (W ∧ g2 = g) ∨
      (¬W ∧ g2.matchAll = false ∧ ∃ m, g2.matchers = g.matchers ++ [m] ∧
        ipsetRefOk ipSets m)) :
    (g2.matchAll = true ↔ (P ∧ W)) ∧
    (∃ d, g2.matchers = f0.matchers ++ d ∧ (d = [] ↔ (P ∧ W)) ∧
      ∀ m ∈ d, ipsetRefOk ipSets m) := by
  rcases prevD with ⟨d, hd, hdiff, hgood⟩
  rcases hstep with ⟨hw, rfl⟩ | ⟨hnw, hma, m, hm, hgm⟩
  · constructor
    · rw [prevM]
      exact ⟨fun hp => ⟨hp, hw⟩, fun hp => hp.1⟩
    · exact ⟨d, hd, by rw [hdiff]; exact ⟨fun hp => ⟨hp, hw⟩, fun hp => hp.1⟩, hgood⟩
  · constructor
    · rw [hma]
      simp only [Bool.false_eq_true, false_iff]
      exact fun hp => hnw hp.2
    · refine ⟨d ++ [m], by rw [hm, hd, List.append_assoc], ?_, ?_⟩
      · constructor
        · intro he; simp at he
        · intro hp; exact absurd hp.2 hnw
      · intro m2 hm2
        rcases List.mem_append.mp hm2 with h2 | h2
        · exact hgood m2 h2
        · rw [List.mem_singleton.mp h2]; exact hgm

theorem addFilterObjs_char (ext : Ext) (f : TrapmuxFilter)
    (ipSets : List (String × List String)) (ln : Nat) (f2 : TrapmuxFilter)
    (h : addFilterObjs ext f ipSets ln = Except.ok f2) :
    ((f2.matchAll = true) ↔ (f.SnmpVersions = [] ∧ f.SourceIp = "" ∧ f.AgentAddress = "" ∧
       f.GenericType = -1 ∧ f.SpecificType = -1 ∧ f.EnterpriseOid = "")) ∧
    (∃ d, f2.matchers = f.matchers ++ d ∧
      ((d = []) ↔ (f.SnmpVersions = [] ∧ f.SourceIp = "" ∧ f.AgentAddress = "" ∧
        f.GenericType = -1 ∧ f.SpecificType = -1 ∧ f.EnterpriseOid = "")) ∧
      (∀ m ∈ d, ipsetRefOk ipSets m)) := by
  rw [addFilterObjs] at h
  cases h1 : addSnmpFilterObj { f with matchAll := true } ln with
  | error e => simp only [h1] at h; cases h
  | ok g1 =>
  simp only [h1] at h
  cases h2 : addIpFilterObj ext g1 FilterItem.filterBySrcIP g1.SourceIp ipSets ln with
  | error e => simp only [h2] at h; cases h
  | ok g2 =>
  simp only [h2] at h
  cases h3 : addIpFilterObj ext g2 FilterItem.filterByAgentAddr g2.AgentAddress ipSets ln with
  | error e => simp only [h3] at h; cases h
  | ok g3 =>
  simp only [h3] at h
  cases h4 : addTrapTypeFilterObj g3 FilterItem.filterByGenericType g3.GenericType ln with
  | error e => simp only [h4] at h; cases h
  | ok g4 =>
  simp only [h4] at h
  cases h5 : addTrapTypeFilterObj g4 FilterItem.filterBySpecificType g4.SpecificType ln with
  | error e => simp only [h5] at h; cases h
  | ok g5 =>
  simp only [h5] at h
  -- step 1: the SNMP-version loop
  rw [addSnmpFilterObj] at h1
  rcases addSnmpFilterLoop_char ln f.SnmpVersions { f with matchAll := true } g1 h1 with
    ⟨e1, e2, e3, e4, e5, e6, ⟨d1, hd1, hlen1, hty1⟩, hnil1, hcons1⟩
  have M1 : g1.matchAll = true ↔ f.SnmpVersions = [] := by
    by_cases hw : f.SnmpVersions = []
    · rw [hnil1 hw]
      simp [hw]
    · rw [hcons1 hw]
      simp [hw]
  have D1 : ∃ d, g1.matchers = f.matchers ++ d ∧ (d = [] ↔ f.SnmpVersions = []) ∧
      ∀ m ∈ d, ipsetRefOk ipSets m := by
    refine ⟨d1, hd1, ?_, ?_⟩
    · constructor
      · intro he
        rw [he] at hlen1
        exact (List.length_eq_zero.mp hlen1.symm)
      · intro hw
        rw [hw] at hlen1
        exact List.length_eq_zero.mp hlen1
    · intro m hm hc
      rw [hty1 m hm] at hc
      exact absurd hc (by decide)
  -- step 2: source IP
  rcases addIpFilterObj_char ext g1 FilterItem.filterBySrcIP g1.SourceIp ipSets ln g2 h2 with
    ⟨p1, p2, p3, p4, p5, p6, hstep2⟩
  rw [e2] at hstep2
  obtain ⟨M2, D2⟩ := step_compose ipSets f g1 g2 (f.SourceIp = "") (f.SnmpVersions = [])
    M1 D1 hstep2
  -- step 3: agent address
  rcases addIpFilterObj_char ext g2 FilterItem.filterByAgentAddr g2.AgentAddress ipSets ln g3 h3 with
    ⟨q1, q2, q3, q4, q5, q6, hstep3⟩
  rw [p3, e3] at hstep3
  obtain ⟨M3, D3⟩ := step_compose ipSets f g2 g3 (f.AgentAddress = "")
    (f.SnmpVersions = [] ∧ f.SourceIp = "") M2 D2 hstep3
  -- step 4: generic type
  rcases addTrapTypeFilterObj_char g3 FilterItem.filterByGenericType g3.GenericType ln g4 h4 with
    ⟨r1, r2, r3, r4, r5, r6, hstep4⟩
  rw [q4, p4, e4] at hstep4
  have hstep4c : (f.GenericType = -1 ∧ g4 = g3) ∨
      (¬(f.GenericType = -1) ∧ g4.matchAll = false ∧
        ∃ m, g4.matchers = g3.matchers ++ [m] ∧ ipsetRefOk ipSets m) := by
    rcases hstep4 with ⟨hw, he⟩ | ⟨hnw, hma, m, hm, hty⟩
    · exact Or.inl ⟨hw, he⟩
    · refine Or.inr ⟨hnw, hma, m, hm, ?_⟩
      intro hc
      rw [hty] at hc
      exact absurd hc (by decide)
  obtain ⟨M4, D4⟩ := step_compose ipSets f g3 g4 (f.GenericType = -1)
    ((f.SnmpVersions = [] ∧ f.SourceIp = "") ∧ f.AgentAddress = "") M3 D3 hstep4c
  -- step 5: specific type
  rcases addTrapTypeFilterObj_char g4 FilterItem.filterBySpecificType g4.SpecificType ln g5 h5 with
    ⟨s1, s2, s3, s4, s5, s6, hstep5⟩
  rw [r5, q5, p5, e5] at hstep5
  have hstep5c : (f.SpecificType = -1 ∧ g5 = g4) ∨
      (¬(f.SpecificType = -1) ∧ g5.matchAll = false ∧
        ∃ m, g5.matchers = g4.matchers ++ [m] ∧ ipsetRefOk ipSets m) := by
    rcases hstep5 with ⟨hw, he⟩ | ⟨hnw, hma, m, hm, hty⟩
    · exact Or.inl ⟨hw, he⟩
    · refine Or.inr ⟨hnw, hma, m, hm, ?_⟩
      intro hc
      rw [hty] at hc
      exact absurd hc (by decide)
  obtain ⟨M5, D5⟩ := step_compose ipSets f g4 g5 (f.SpecificType = -1)
    (((f.SnmpVersions = [] ∧ f.SourceIp = "") ∧ f.AgentAddress = "") ∧ f.GenericType = -1)
    M4 D4 hstep5c
  -- step 6: enterprise OID
  rcases addOidFilterObj_char ext g5 g5.EnterpriseOid ln f2 h with
    ⟨t1, t2, t3, t4, t5, t6, hstep6⟩
  rw [s6, r6, q6, p6, e6] at hstep6
  have hstep6c : (f.EnterpriseOid = "" ∧ f2 = g5) ∨
      (¬(f.EnterpriseOid = "") ∧ f2.matchAll = false ∧
        ∃ m, f2.matchers = g5.matchers ++ [m] ∧ ipsetRefOk ipSets m) := by
    rcases hstep6 with ⟨hw, he⟩ | ⟨hnw, hma, m, hm, hty⟩
    · exact Or.inl ⟨hw, he⟩
    · refine Or.inr ⟨hnw, hma, m, hm, ?_⟩
      intro hc
      rw [hty] at hc
      exact absurd hc (by decide)
  obtain ⟨M6, D6⟩ := step_compose ipSets f g5 f2 (f.EnterpriseOid = "")
    ((((f.SnmpVersions = [] ∧ f.SourceIp = "") ∧ f.AgentAddress = "") ∧ f.GenericType = -1) ∧
      f.SpecificType = -1)
    M5 D5 hstep6c
  constructor
  · constructor
    · intro hma
      rcases M6.mp hma with ⟨⟨⟨⟨⟨a1, a2⟩, a3⟩, a4⟩, a5⟩, a6⟩
      exact ⟨a1, a2, a3, a4, a5, a6⟩
    · intro hw
      exact M6.mpr ⟨⟨⟨⟨⟨hw.1, hw.2.1⟩, hw.2.2.1⟩, hw.2.2.2.1⟩, hw.2.2.2.2.1⟩, hw.2.2.2.2.2⟩
  · rcases D6 with ⟨d, hd, hdiff, hgood⟩
    refine ⟨d, hd, ?_, hgood⟩
    constructor
    · intro hde
      rcases hdiff.mp hde with ⟨⟨⟨⟨⟨a1, a2⟩, a3⟩, a4⟩, a5⟩, a6⟩
      exact ⟨a1, a2, a3, a4, a5, a6⟩
    · intro hw
      exact hdiff.mpr ⟨⟨⟨⟨⟨hw.1, hw.2.1⟩, hw.2.2.1⟩, hw.2.2.2.1⟩, hw.2.2.2.2.1⟩, hw.2.2.2.2.2⟩

theorem bumpVersionCounter_totalTraps (s : HState) (v : SnmpVersion) :
    (bumpVersionCounter s v).totalTraps = s.totalTraps := by
  cases v <;> simp [bumpVersionCounter]

theorem trapHandler_char (cfg : TrapmuxConfig) (s : HState) (p : SnmpPacket) (a : String) :
    (trapHandler cfg s p a).1.totalTraps = s.totalTraps + 1 ∧
    (trapHandler cfg s p a).2 =
      (if isIgnoredVersion cfg p.Version then none
       else some (mkTrap cfg p a (s.totalTraps + 1))) := by
  by_cases h : isIgnoredVersion cfg p.Version = true
  · constructor
    · simp only [trapHandler, h, if_pos]
      rw [HState.totalTraps]  -- projection of the ignored-branch record
      simp [bumpVersionCounter_totalTraps]
    · simp [trapHandler, h]
  · have h2 : isIgnoredVersion cfg p.Version = false := by
      revert h; cases isIgnoredVersion cfg p.Version <;> simp
    constructor
    · simp [trapHandler, h2, bumpVersionCounter_totalTraps]
    · simp [trapHandler, h2, bumpVersionCounter_totalTraps]

theorem runTrapHandler_char (cfg : TrapmuxConfig) :
    ∀ (ps : List (SnmpPacket × String)) (s : HState),
    (runTrapHandler cfg s ps).2 = expectedOuts cfg s.totalTraps ps ∧
    (runTrapHandler cfg s ps).1.totalTraps = s.totalTraps + ps.length := by
  intro ps
  induction ps with
  | nil => intro s; simp [runTrapHandler, expectedOuts]
  | cons pa rest ih =>
    intro s
    obtain ⟨p, a⟩ := pa
    obtain ⟨ht, ho⟩ := trapHandler_char cfg s p a
    obtain ⟨iho, iht⟩ := ih (trapHandler cfg s p a).1
    constructor
    · rw [runTrapHandler]
      simp only []
      rw [expectedOuts, ← ho, ← ht, ← iho]
    · rw [runTrapHandler]
      simp only []
      rw [iht, ht, List.length_cons]
      omega

theorem expectedOuts_length (cfg : TrapmuxConfig) :
    ∀ (ps : List (SnmpPacket × String)) (n : Nat),
    (expectedOuts cfg n ps).length = ps.length := by
  intro ps
  induction ps with
  | nil => intro n; simp [expectedOuts]
  | cons pa rest ih =>
    intro n
    obtain ⟨p, a⟩ := pa
    simp [expectedOuts, ih]

theorem expectedOuts_getD_some (cfg : TrapmuxConfig) :
    ∀ (ps : List (SnmpPacket × String)) (n i : Nat) (tr : Trap),
    (expectedOuts cfg n ps).getD i none = some tr → tr.TrapNumber = n + i + 1 := by
  intro ps
  induction ps with
  | nil => intro n i tr h; simp [expectedOuts] at h
  | cons pa rest ih =>
    intro n i tr h
    obtain ⟨p, a⟩ := pa
    cases i with
    | zero =>
      rw [expectedOuts, List.getD_cons_zero] at h
      by_cases hig : isIgnoredVersion cfg p.Version = true
      · rw [if_pos hig] at h; cases h
      · rw [if_neg hig] at h
        injection h with h2
        rw [← h2, mkTrap]
    | succ i2 =>
      rw [expectedOuts, List.getD_cons_succ] at h
      have := ih (n + 1) i2 tr h
      omega

theorem expectedOuts_getD_none (cfg : TrapmuxConfig) :
    ∀ (ps : List (SnmpPacket × String)) (n i : Nat), i < ps.length →
    ((expectedOuts cfg n ps).getD i none = none ↔
      isIgnoredVersion cfg ((ps.getD i (dfltPacket, "")).1.Version) = true) := by
  intro ps
  induction ps with
  | nil => intro n i h; simp at h
  | cons pa rest ih =>
    intro n i h
    obtain ⟨p, a⟩ := pa
    cases i with
    | zero =>
      rw [expectedOuts, List.getD_cons_zero, List.getD_cons_zero]
      by_cases hig : isIgnoredVersion cfg p.Version = true
      · simp [hig]
      · simp [hig]
    | succ i2 =>
      rw [expectedOuts, List.getD_cons_succ, List.getD_cons_succ]
      exact ih (n + 1) i2 (by simpa using h)

/-- C10: the trap handler increments the global totalTraps for every received
packet, ignored ones included (first conjunct counts all of them), returns
none exactly for ignored versions (second and fifth conjuncts), stamps each
handled trap with the running total so the i-th received packet — if handled
— carries sequence number i + 1 (third conjunct), which makes sequence
numbers strictly increasing across handled traps while ignored packets still
consume numbers (fourth conjunct). -/
theorem trapHandler_sequence (cfg : TrapmuxConfig) (ps : List (SnmpPacket × String)) :
    ((runTrapHandler cfg initHState ps).1.totalTraps = ps.length) ∧
    ((runTrapHandler cfg initHState ps).2 = expectedOuts cfg 0 ps) ∧
    (∀ (i : Nat) (tr : Trap),
      (runTrapHandler cfg initHState ps).2.getD i none = some tr →
      tr.TrapNumber = i + 1) ∧
    (∀ (i j : Nat) (tri trj : Trap), i < j →
      (runTrapHandler cfg initHState ps).2.getD i none = some tri →
      (runTrapHandler cfg initHState ps).2.getD j none = some trj →
      tri.TrapNumber < trj.TrapNumber) ∧
    (∀ i, i < ps.length →
      ((runTrapHandler cfg initHState ps).2.getD i none = none ↔
        isIgnoredVersion cfg ((ps.getD i (dfltPacket, "")).1.Version) = true)) := by
  obtain ⟨houts, htotal⟩ := runTrapHandler_char cfg ps initHState
  have hnum : ∀ (i : Nat) (tr : Trap),
      (runTrapHandler cfg initHState ps).2.getD i none = some tr → tr.TrapNumber = i + 1 := by
    intro i tr h
    rw [houts] at h
    have := expectedOuts_getD_some cfg ps 0 i tr h
    omega
  refine ⟨by rw [htotal]; simp [initHState], houts, hnum, ?_, ?_⟩
  · intro i j tri trj hij hi hj
    rw [hnum i tri hi, hnum j trj hj]
    omega
  · intro i hi
    rw [houts]
    exact expectedOuts_getD_none cfg ps 0 i hi

/-- Witness for C10: three packets under a snapshot that ignores v2c — the
total reaches 3, the first and third packets are handled with numbers 1 and
3 (strictly increasing across the ignored second packet, which consumed
number 2), and the second output is none exactly because v2c is ignored. -/
theorem trapHandler_sequence_witness :
    (runTrapHandler cfgIgnoreV2c initHState witPackets).1.totalTraps = 3 ∧
    (mkTrap cfgIgnoreV2c (witPacket SnmpVersion.v1) ("10.0.0.1") 1).TrapNumber <
      (mkTrap cfgIgnoreV2c (witPacket SnmpVersion.v1) ("10.0.0.3") 3).TrapNumber ∧
    ((runTrapHandler cfgIgnoreV2c initHState witPackets).2.getD 1 none = none ↔
      isIgnoredVersion cfgIgnoreV2c ((witPackets.getD 1 (dfltPacket, "")).1.Version) = true) := by
  have h := trapHandler_sequence cfgIgnoreV2c witPackets
  exact ⟨by rw [h.1]; rfl,
         h.2.2.2.1 0 2
           (mkTrap cfgIgnoreV2c (witPacket SnmpVersion.v1) ("10.0.0.1") 1)
           (mkTrap cfgIgnoreV2c (witPacket SnmpVersion.v1) ("10.0.0.3") 3)
           (by omega) (by decide) (by decide),
         h.2.2.2.2 1 (by decide)⟩

/-- C7: for every filter record produced by snapshot assembly (addFilterObjs
on a freshly unmarshalled stanza, whose computed matcher list starts empty),
match_all is true exactly when the matcher list is empty, and the matcher
list is empty exactly when every field of the stanza is a wildcard (empty
SNMP-version list, empty IP/OID strings, trap types equal to -1): a matcher
is emitted only for a present, non-wildcard field, and every emitted matcher
resets match_all to false. -/
theorem addFilterObjs_matchAll_iff (ext : Ext) (f : TrapmuxFilter)
    (ipSets : List (String × List String)) (ln : Nat) (f2 : TrapmuxFilter)
    (hinit : f.matchers = [])
    (h : addFilterObjs ext f ipSets ln = Except.ok f2) :
    ((f2.matchAll = true) ↔ (f2.matchers = [])) ∧
    ((f2.matchers = []) ↔ (f.SnmpVersions = [] ∧ f.SourceIp = "" ∧ f.AgentAddress = "" ∧
       f.GenericType = -1 ∧ f.SpecificType = -1 ∧ f.EnterpriseOid = "")) := by
  rcases addFilterObjs_char ext f ipSets ln f2 h with ⟨hM, d, hd, hdiff, hgood⟩
  have hmd : f2.matchers = d := by rw [hd, hinit]; simp
  rw [hmd]
  exact ⟨hM.trans hdiff.symm, hdiff⟩

/-- Witness for C7: the stanza `c7WitFilter` (only its source IP present)
assembles to `c7WitOut`, whose single matcher forces match_all false. -/
theorem addFilterObjs_matchAll_iff_witness :
    ((c7WitOut.matchAll = true) ↔ (c7WitOut.matchers = [])) ∧
    ((c7WitOut.matchers = []) ↔ (c7WitFilter.SnmpVersions = [] ∧ c7WitFilter.SourceIp = "" ∧
       c7WitFilter.AgentAddress = "" ∧ c7WitFilter.GenericType = -1 ∧
       c7WitFilter.SpecificType = -1 ∧ c7WitFilter.EnterpriseOid = "")) :=
  addFilterObjs_matchAll_iff extNoop c7WitFilter [] 0 c7WitOut rfl (by decide)

theorem setAction_preserves (ext : Ext) (f : TrapmuxFilter) (pp : String) (ln : Nat)
    (f2 : TrapmuxFilter) (h : setAction ext f pp ln = Except.ok f2) :
    f2.matchers = f.matchers ∧ f2.matchAll = f.matchAll := by
  rw [setAction] at h
  split at h
  · injection h with h; subst h; exact ⟨rfl, rfl⟩
  · injection h with h; subst h; exact ⟨rfl, rfl⟩
  · dsimp only [] at h
    split at h
    · cases h
    · injection h with h; subst h; exact ⟨rfl, rfl⟩
  · split at h
    · cases h
    · dsimp only [] at h
      split at h
      · cases h
      · injection h with h; subst h; exact ⟨rfl, rfl⟩

theorem addFiltersLoop_char (ext : Ext) (ipSets : List (String × List String)) (pp : String) :
    ∀ (fs : List TrapmuxFilter) (i : Nat) (fs2 : List TrapmuxFilter),
    addFiltersLoop ext ipSets pp i fs = Except.ok fs2 →
    (∀ f ∈ fs, f.matchers = []) →
    ∀ f2 ∈ fs2, (f2.matchAll = true ↔ f2.matchers = []) ∧
      (∀ m ∈ f2.matchers, ipsetRefOk ipSets m) := by
  intro fs
  induction fs with
  | nil =>
    intro i fs2 h hinit f2 hf2
    rw [addFiltersLoop] at h
    injection h with h
    subst h
    simp at hf2
  | cons f rest ih =>
    intro i fs2 h hinit
    rw [addFiltersLoop] at h
    cases ha : addFilterObjs ext f ipSets i with
    | error e => simp only [ha] at h; cases h
    | ok f1 =>
    simp only [ha] at h
    cases hs : setAction ext f1 pp i with
    | error e => simp only [hs] at h; cases h
    | ok fDone =>
    simp only [hs] at h
    cases hrest : addFiltersLoop ext ipSets pp (i + 1) rest with
    | error e => simp only [hrest] at h; cases h
    | ok fs3 =>
    simp only [hrest] at h
    injection h with h
    subst h
    intro f2 hf2
    rcases List.mem_cons.mp hf2 with rfl | hmem
    · have hfinit : f.matchers = [] := hinit f (by simp)
      obtain ⟨hiff, _⟩ := addFilterObjs_matchAll_iff ext f ipSets i f1 hfinit ha
      rcases addFilterObjs_char ext f ipSets i f1 ha with ⟨_, d, hd, _, hgood⟩
      rcases setAction_preserves ext f1 pp i f2 hs with ⟨hm, hma⟩
      constructor
      · rw [hma, hm]; exact hiff
      · intro m hmm
        rw [hm, hd, hfinit] at hmm
        simp at hmm
        exact hgood m hmm
    · exact ih (i + 1) fs3 hrest (fun g hg => hinit g (by simp [hg])) f2 hmem

theorem validateIgnoreVersions_preserves (cfg cfg2 : TrapmuxConfig)
    (h : validateIgnoreVersions cfg = Except.ok cfg2) :
    cfg2.Filters = cfg.Filters ∧ cfg2.PluginErrorActions = cfg.PluginErrorActions ∧
    cfg2.IpSets = cfg.IpSets ∧ cfg2.IpSets_str = cfg.IpSets_str ∧
    cfg2.General = cfg.General := by
  rw [validateIgnoreVersions] at h
  cases hl : ivLoop cfg.TrapReceiverSettings.IgnoreVersions_str
      cfg.TrapReceiverSettings.IgnoreVersions false false false with
  | error e => simp only [hl] at h; cases h
  | ok vs =>
    simp only [hl] at h
    by_cases hgt : vs.length > 2
    · rw [if_pos hgt] at h; cases h
    · rw [if_neg hgt] at h
      injection h with h
      subst h
      exact ⟨rfl, rfl, rfl, rfl, rfl⟩

theorem addIpSetStanza_preserves (entries : List (String × List String)) :
    ∀ (cfg cfg2 : TrapmuxConfig), addIpSetStanza entries cfg = Except.ok cfg2 →
    cfg2.Filters = cfg.Filters ∧ cfg2.PluginErrorActions = cfg.PluginErrorActions ∧
    cfg2.General = cfg.General := by
  induction entries with
  | nil =>
    intro cfg cfg2 h
    rw [addIpSetStanza] at h
    injection h with h
    subst h
    exact ⟨rfl, rfl, rfl⟩
  | cons p rest ih =>
    intro cfg cfg2 h
    obtain ⟨n, ips⟩ := p
    rw [addIpSetStanza] at h
    cases hc : checkIps n ips with
    | error e => simp only [hc] at h; cases h
    | ok good =>
      simp only [hc] at h
      rcases ih { cfg with IpSets := mapInsert cfg.IpSets n good } cfg2 h with ⟨a, b, c⟩
      exact ⟨a, b, c⟩

theorem addIpSetsLoop_preserves (stanzas : List (List (String × List String))) :
    ∀ (cfg cfg2 : TrapmuxConfig), addIpSetsLoop stanzas cfg = Except.ok cfg2 →
    cfg2.Filters = cfg.Filters ∧ cfg2.PluginErrorActions = cfg.PluginErrorActions ∧
    cfg2.General = cfg.General := by
  induction stanzas with
  | nil =>
    intro cfg cfg2 h
    rw [addIpSetsLoop] at h
    injection h with h
    subst h
    exact ⟨rfl, rfl, rfl⟩
  | cons st rest ih =>
    intro cfg cfg2 h
    rw [addIpSetsLoop] at h
    cases hs : addIpSetStanza st cfg with
    | error e => simp only [hs] at h; cases h
    | ok c2 =>
      simp only [hs] at h
      rcases ih _ _ h with ⟨a, b, c⟩
      rcases addIpSetStanza_preserves st cfg c2 hs with ⟨a2, b2, c3⟩
      exact ⟨a.trans a2, b.trans b2, c.trans c3⟩

theorem addFilters_shape (ext : Ext) (cfg cfg2 : TrapmuxConfig)
    (h : addFilters ext cfg = Except.ok cfg2) :
    ∃ fs, addFiltersLoop ext cfg.IpSets cfg.General.PluginPath 0 cfg.Filters = Except.ok fs ∧
      cfg2 = { cfg with Filters := fs } := by
  rw [addFilters] at h
  cases hl : addFiltersLoop ext cfg.IpSets cfg.General.PluginPath 0 cfg.Filters with
  | error e => simp only [hl] at h; cases h
  | ok fs =>
    simp only [hl] at h
    injection h with h
    exact ⟨fs, rfl, h.symm⟩

theorem addPluginErrorActions_shape (ext : Ext) (cfg cfg2 : TrapmuxConfig)
    (h : addPluginErrorActions ext cfg = Except.ok cfg2) :
    ∃ fs, addFiltersLoop ext cfg.IpSets cfg.General.PluginPath 0 cfg.PluginErrorActions =
        Except.ok fs ∧
      cfg2 = { cfg with PluginErrorActions := fs } := by
  rw [addPluginErrorActions] at h
  cases hl : addFiltersLoop ext cfg.IpSets cfg.General.PluginPath 0 cfg.PluginErrorActions with
  | error e => simp only [hl] at h; cases h
  | ok fs =>
    simp only [hl] at h
    injection h with h
    exact ⟨fs, rfl, h.symm⟩

theorem addReportingPlugins_shape (ext : Ext) (old : Option TrapmuxConfig)
    (cfg cfg2 : TrapmuxConfig) (h : addReportingPlugins ext old cfg = Except.ok cfg2) :
    cfg2 = cfg := by
  unfold addReportingPlugins at h
  cases old with
  | none =>
    dsimp only [] at h
    cases hr : addReportingLoop ext "" 0 cfg.Reporting with
    | error e => simp only [hr] at h; cases h
    | ok u =>
      simp only [hr] at h
      injection h with h
      exact h.symm
  | some oc =>
    dsimp only [] at h
    cases hr : addReportingLoop ext oc.General.PluginPath 0 cfg.Reporting with
    | error e => simp only [hr] at h; cases h
    | ok u =>
      simp only [hr] at h
      injection h with h
      exact h.symm

theorem loadConfig_init (ext : Ext) (c0 : TrapmuxConfig) (h : loadConfig ext = Except.ok c0) :
    (∀ f ∈ c0.Filters, f.matchers = []) ∧ (∀ f ∈ c0.PluginErrorActions, f.matchers = []) := by
  rw [loadConfig] at h
  cases hj : ext.loadConfigJson with
  | error e => simp only [hj] at h; cases h
  | ok c =>
    simp only [hj] at h
    injection h with h
    subst h
    constructor
    · intro f hf
      simp only [List.mem_map] at hf
      rcases hf with ⟨g, hg, he⟩
      rw [← he]
      rfl
    · intro f hf
      simp only [List.mem_map] at hf
      rcases hf with ⟨g, hg, he⟩
      rw [← he]
      rfl

theorem assembleConfig_filters (ext : Ext) (old : Option TrapmuxConfig) (c : TrapmuxConfig)
    (h : assembleConfig ext old = Except.ok c) :
    ∀ f2 ∈ c.Filters ++ c.PluginErrorActions,
      (f2.matchAll = true ↔ f2.matchers = []) ∧
      (∀ m ∈ f2.matchers, ipsetRefOk c.IpSets m) := by
  rw [assembleConfig] at h
  cases hload : loadConfig ext with
  | error e => simp only [hload] at h; cases h
  | ok c0 =>
  simp only [hload] at h
  cases hiv : validateIgnoreVersions (applyCliOverrides ext c0) with
  | error e => simp only [hiv] at h; cases h
  | ok c2 =>
  simp only [hiv] at h
  cases hv3 : validateSnmpV3Args ext c2.TrapReceiverSettings with
  | error e => simp only [hv3] at h; cases h
  | ok trs =>
  simp only [hv3] at h
  cases hip : addIpSets { c2 with TrapReceiverSettings := trs } with
  | error e => simp only [hip] at h; cases h
  | ok c4 =>
  simp only [hip] at h
  cases hf : addFilters ext c4 with
  | error e => simp only [hf] at h; cases h
  | ok c5 =>
  simp only [hf] at h
  cases hp : addPluginErrorActions ext c5 with
  | error e => simp only [hp] at h; cases h
  | ok c6 =>
  simp only [hp] at h
  have hc6 : c = c6 := addReportingPlugins_shape ext old c6 c h
  -- initial matcher lists are empty and survive to c4
  obtain ⟨hi1, hi2⟩ := loadConfig_init ext c0 hload
  rcases validateIgnoreVersions_preserves (applyCliOverrides ext c0) c2 hiv with
    ⟨hva, hvb, hvc, hvd, hve⟩
  rw [addIpSets] at hip
  rcases addIpSetsLoop_preserves _ _ _ hip with ⟨hia, hib, hic⟩
  have happF : (applyCliOverrides ext c0).Filters = c0.Filters := rfl
  have happP : (applyCliOverrides ext c0).PluginErrorActions = c0.PluginErrorActions := rfl
  have hc4F : c4.Filters = c0.Filters := by
    rw [hia]
    show c2.Filters = c0.Filters
    rw [hva, happF]
  have hc4P : c4.PluginErrorActions = c0.PluginErrorActions := by
    rw [hib]
    show c2.PluginErrorActions = c0.PluginErrorActions
    rw [hvb, happP]
  rcases addFilters_shape ext c4 c5 hf with ⟨fs, hfs, hc5⟩
  rcases addPluginErrorActions_shape ext c5 c6 hp with ⟨fs2, hfs2, hc6e⟩
  have hcF : c.Filters = fs := by rw [hc6, hc6e, hc5]
  have hcP : c.PluginErrorActions = fs2 := by rw [hc6, hc6e]
  have hcI : c.IpSets = c4.IpSets := by rw [hc6, hc6e, hc5]
  intro f2 hf2
  rw [hcF, hcP] at hf2
  rw [hcI]
  rcases List.mem_append.mp hf2 with hmem | hmem
  · exact addFiltersLoop_char ext c4.IpSets c4.General.PluginPath c4.Filters 0 fs hfs
      (by rw [hc4F]; exact hi1) f2 hmem
  · rw [hc5] at hfs2
    exact addFiltersLoop_char ext c4.IpSets c4.General.PluginPath c4.PluginErrorActions 0 fs2
      hfs2 (by rw [hc4P]; exact hi2) f2 hmem

/-- C8: in every successfully published snapshot, every matcher of kind
ipset_membership carries the name of a key of the snapshot's ipset registry
(the registry is built by addIpSets before addFilters binds the filters, and
the reference is checked at emission), and a filter stanza naming an unknown
ipset makes addIpFilterObj — hence snapshot assembly — fail with an error
instead of emitting a dangling reference. -/
theorem getConfig_ipset_refs (ext : Ext) (old : Option TrapmuxConfig)
    (S : TrapmuxConfig) (evs : List (String × Bool))
    (h : getConfig ext old = (some S, evs, Except.ok ())) :
    (∀ f2 ∈ S.Filters ++ S.PluginErrorActions, ∀ m ∈ f2.matchers,
      m.filterType = ParseType.parseTypeIPSet →
      ∃ nm, m.filterValue = FilterValue.str nm ∧ (S.IpSets.lookup nm).isSome = true) ∧
    (∀ (f : TrapmuxFilter) (source : FilterItem) (entry : String)
      (ipSets : List (String × List String)) (ln : Nat),
      strHasPrefix entry ("ipset:") = true →
      ipSets.lookup (entry.drop 6) = none →
      ∃ e, addIpFilterObj ext f source entry ipSets ln = Except.error e) := by
  constructor
  · unfold getConfig at h
    cases ha : assembleConfig ext old with
    | error e => simp only [ha] at h; simp at h
    | ok c =>
      simp only [ha] at h
      simp only [Prod.mk.injEq, Option.some.injEq] at h
      obtain ⟨hS, _⟩ := h
      subst hS
      intro f2 hf2 m hm hty
      have := (assembleConfig_filters ext old c ha f2 (by simpa using hf2)).2 m hm hty
      simpa using this
  · intro f source entry ipSets ln hpre hlk
    have hemp : ¬(entry = "") := by
      intro he
      subst he
      exact absurd hpre (by decide)
    have hns : ¬((ipSets.lookup (entry.drop 6)).isSome = true) := by
      rw [hlk]
      simp
    rw [addIpFilterObj, if_neg hemp]
    simp only [hpre, if_true, if_neg hns]
    exact ⟨_, rfl⟩

/-- Witness for C8: the snapshot published from `ext8Cfg` carries one
ipset matcher naming the registered set `good`, and a filter naming a
missing ipset fails to assemble. -/
theorem getConfig_ipset_refs_witness :
    (∀ f2 ∈ cfg8out.Filters ++ cfg8out.PluginErrorActions, ∀ m ∈ f2.matchers,
      m.filterType = ParseType.parseTypeIPSet →
      ∃ nm, m.filterValue = FilterValue.str nm ∧ (cfg8out.IpSets.lookup nm).isSome = true) ∧
    (∃ e, addIpFilterObj ext8 emptyFilter FilterItem.filterBySrcIP ("ipset:missing") [] 0 =
      Except.error e) := by
  have h := getConfig_ipset_refs ext8 none cfg8out (getConfig ext8 none).2.1 (by decide)
  exact ⟨h.1, h.2 emptyFilter FilterItem.filterBySrcIP ("ipset:missing") [] 0
    (by decide) (by decide)⟩

/-- C2: reload is all-or-nothing.  If the assembly pipeline fails, getConfig
returns the error, performs no Close, and leaves the published snapshot
exactly as it was, while handleSIGHUP logs the failure (first conjunct); a
failure of any individual step — load, ignore-version validation, v3
validation, ipset build, filter build, plugin-error-action build,
reporting-plugin build — makes the pipeline fail with that step's error
(middle conjuncts); and a snapshot is published only when assembly returned
ok, the published value being the assembled configuration (last conjunct). -/
theorem getConfig_all_or_nothing (ext : Ext) (old : Option TrapmuxConfig) :
    (∀ e, assembleConfig ext old = Except.error e →
      getConfig ext old = (old, [], Except.error e) ∧
      handleSIGHUPOnce ext old =
        (old, [], ["Error parsing configuration / Configuration was not changed"])) ∧
    (∀ e, loadConfig ext = Except.error e → assembleConfig ext old = Except.error e) ∧
    (∀ c0 e, loadConfig ext = Except.ok c0 →
      validateIgnoreVersions (applyCliOverrides ext c0) = Except.error e →
      assembleConfig ext old = Except.error e) ∧
    (∀ c0 c2 e, loadConfig ext = Except.ok c0 →
      validateIgnoreVersions (applyCliOverrides ext c0) = Except.ok c2 →
      validateSnmpV3Args ext c2.TrapReceiverSettings = Except.error e →
      assembleConfig ext old = Except.error e) ∧
    (∀ c0 c2 trs e, loadConfig ext = Except.ok c0 →
      validateIgnoreVersions (applyCliOverrides ext c0) = Except.ok c2 →
      validateSnmpV3Args ext c2.TrapReceiverSettings = Except.ok trs →
      addIpSets { c2 with TrapReceiverSettings := trs } = Except.error e →
      assembleConfig ext old = Except.error e) ∧
    (∀ c0 c2 trs c4 e, loadConfig ext = Except.ok c0 →
      validateIgnoreVersions (applyCliOverrides ext c0) = Except.ok c2 →
      validateSnmpV3Args ext c2.TrapReceiverSettings = Except.ok trs →
      addIpSets { c2 with TrapReceiverSettings := trs } = Except.ok c4 →
      addFilters ext c4 = Except.error e →
      assembleConfig ext old = Except.error e) ∧
    (∀ c0 c2 trs c4 c5 e, loadConfig ext = Except.ok c0 →
      validateIgnoreVersions (applyCliOverrides ext c0) = Except.ok c2 →
      validateSnmpV3Args ext c2.TrapReceiverSettings = Except.ok trs →
      addIpSets { c2 with TrapReceiverSettings := trs } = Except.ok c4 →
      addFilters ext c4 = Except.ok c5 →
      addPluginErrorActions ext c5 = Except.error e →
      assembleConfig ext old = Except.error e) ∧
    (∀ c0 c2 trs c4 c5 c6 e, loadConfig ext = Except.ok c0 →
      validateIgnoreVersions (applyCliOverrides ext c0) = Except.ok c2 →
      validateSnmpV3Args ext c2.TrapReceiverSettings = Except.ok trs →
      addIpSets { c2 with TrapReceiverSettings := trs } = Except.ok c4 →
      addFilters ext c4 = Except.ok c5 →
      addPluginErrorActions ext c5 = Except.ok c6 →
      addReportingPlugins ext old c6 = Except.error e →
      assembleConfig ext old = Except.error e) ∧
    (∀ S evs, getConfig ext old = (some S, evs, Except.ok ()) →
      ∃ c, assembleConfig ext old = Except.ok c ∧ S = { c with teConfigured := true }) := by
  refine ⟨?_, ?_, ?_, ?_, ?_, ?_, ?_, ?_, ?_⟩
  · intro e he
    constructor
    · unfold getConfig
      rw [he]
    · unfold handleSIGHUPOnce getConfig
      rw [he]
  · intro e he
    unfold assembleConfig
    rw [he]
  · intro c0 e h1 h2
    unfold assembleConfig
    simp only [h1, h2]
  · intro c0 c2 e h1 h2 h3
    unfold assembleConfig
    simp only [h1, h2, h3]
  · intro c0 c2 trs e h1 h2 h3 h4
    unfold assembleConfig
    simp only [h1, h2, h3, h4]
  · intro c0 c2 trs c4 e h1 h2 h3 h4 h5
    unfold assembleConfig
    simp only [h1, h2, h3, h4, h5]
  · intro c0 c2 trs c4 c5 e h1 h2 h3 h4 h5 h6
    unfold assembleConfig
    simp only [h1, h2, h3, h4, h5, h6]
  · intro c0 c2 trs c4 c5 c6 e h1 h2 h3 h4 h5 h6 h7
    unfold assembleConfig
    simp only [h1, h2, h3, h4, h5, h6, h7]
  · intro S evs h
    cases ha : assembleConfig ext old with
    | error e =>
      unfold getConfig at h
      rw [ha] at h
      simp at h
    | ok c =>
      unfold getConfig at h
      rw [ha] at h
      simp only [Prod.mk.injEq, Option.some.injEq] at h
      exact ⟨c, rfl, h.1.symm⟩

/-- Witness for C2: under `extNoop` the config loader fails, so a reload over
the live snapshot `ivWitCfg` leaves it published, closes nothing, and logs
the failure. -/
theorem getConfig_all_or_nothing_witness :
    (getConfig extNoop (some ivWitCfg) =
      (some ivWitCfg, [], Except.error ("no configuration source"))) ∧
    (handleSIGHUPOnce extNoop (some ivWitCfg) =
      (some ivWitCfg, [], ["Error parsing configuration / Configuration was not changed"])) :=
  (getConfig_all_or_nothing extNoop (some ivWitCfg)).1 ("no configuration source") (by decide)

theorem closeHandlesLoop_eq (ext : Ext) (fs : List TrapmuxFilter) :
    closeHandlesLoop ext fs =
      (fs.filter (fun f => f.actionType == ActionType.actionPlugin)).map
        (fun f => (f.ActionName, ext.pluginCloseErr f.ActionName)) := by
  induction fs with
  | nil => rfl
  | cons f rest ih =>
    by_cases hp : f.actionType = ActionType.actionPlugin
    · simp [closeHandlesLoop, hp, List.filter_cons, ih]
    · simp [closeHandlesLoop, hp, List.filter_cons, ih]

/-- C5 counterexample: the claim requires `close` on EVERY bound action
plugin of the superseded snapshot, including the plugin_error_filters list.
The superseded snapshot `cexOldCfg` has exactly one plugin-bound filter, and
it sits in PluginErrorActions; a successful reload over it performs zero
Close invocations, so that plugin is never closed. -/
theorem closeHandles_misses_plugin_error_filters :
    ((cexOldCfg.PluginErrorActions.filter
        (fun f => f.actionType == ActionType.actionPlugin)).length = 1) ∧
    ((getConfig ext8 (some cexOldCfg)).2.2 = Except.ok ()) ∧
    ((getConfig ext8 (some cexOldCfg)).2.1 = []) := by
  decide

/-- C5 (amended): when a snapshot is superseded by a successful reload,
`close` is invoked exactly once on the plugin of every filter of the
superseded snapshot's MAIN filter list whose action is a plugin, in list
order — plugins bound only in the plugin_error_filters list are not closed —
and a per-plugin close error is only logged (the Bool of each pair): the
close list is a pure map, so an erroring close removes no later entry, and
the reload still publishes the new snapshot whatever the close outcomes
(`ext` is universally quantified, including oracles whose every close
errors). -/
theorem getConfig_close_superseded (ext : Ext) (old : TrapmuxConfig) (c : TrapmuxConfig)
    (hconf : old.teConfigured = true)
    (ha : assembleConfig ext (some old) = Except.ok c) :
    getConfig ext (some old) =
      (some { c with teConfigured := true }, closeHandles ext old, Except.ok ()) ∧
    closeHandles ext old =
      (old.Filters.filter (fun f => f.actionType == ActionType.actionPlugin)).map
        (fun f => (f.ActionName, ext.pluginCloseErr f.ActionName)) := by
  constructor
  · unfold getConfig
    rw [ha]
    dsimp only []
    rw [if_pos hconf]
  · rw [closeHandles]
    exact closeHandlesLoop_eq ext old.Filters

/-- Witness for C5's amended theorem: `ext5` (every close errors) reloading
over `cexOldCfg2` (two plugin filters around a break filter in the main
list) publishes the assembled snapshot and closes exactly those two, in
order, with their errors logged. -/
theorem getConfig_close_superseded_witness :
    (getConfig ext5 (some cexOldCfg2) =
      (some { cfg5asm with teConfigured := true }, closeHandles ext5 cexOldCfg2,
        Except.ok ())) ∧
    (closeHandles ext5 cexOldCfg2 =
      (cexOldCfg2.Filters.filter (fun f => f.actionType == ActionType.actionPlugin)).map
        (fun f => (f.ActionName, ext5.pluginCloseErr f.ActionName))) :=
  getConfig_close_superseded ext5 cexOldCfg2 cfg5asm rfl (by decide)

end Trapmux
